import Mathlib

/-!
# Verification of the xDS discovery-server core

A shallow embedding, in Lean 4, of the parts of the repository that the
checked properties speak about:

* the ack/nack decision `shouldRespond` and its helper `listEqualUnordered`
  (file `src/unnamed/part_004`);
* `PushRequest.Merge`, `PushContext.DestinationRule`,
  `PushContext.InitContext` / `createNewContext` / `updateContext` and
  `initServiceRegistry` (file `src/pilot/pkg/model/push_context.go`);
* `ReconcileStatuses` of the distribution-status tracker
  (file `src/unnamed/part_001`).

Go maps are embedded as functions with an `Option`/default codomain or as
key lists, Go slices as `List`, nilable pointers as `Option`, and the
`map[K]struct{}` sets of `ConfigsUpdated` as `Finset`.  Machine integers do
not occur in the embedded fragment (only counters and lengths), so `Nat`
carries them exactly.  Store/registry errors and locking are orthogonal to
every property below and are noted where they are elided.
-/

namespace IstioProof

/-! ## The ack/nack state machine (`src/unnamed/part_004`) -/

/-- The fields of `discovery.DiscoveryRequest` that `shouldRespond` reads.
`ErrorDetail` is a nilable pointer to a status carrying a code; only its
presence (and code) matters to the control flow. -/
structure DiscoveryRequest where
  TypeUrl : String
  VersionInfo : String
  ResponseNonce : String
  ResourceNames : List String
  ErrorDetail : Option Int
  deriving DecidableEq, Repr

/-- `model.WatchedResource`: per (connection, type-url) protocol state. -/
structure WatchedResource where
  TypeUrl : String
  ResourceNames : List String
  NonceSent : String
  VersionSent : String
  NonceAcked : String
  VersionAcked : String
  LastRequest : Option DiscoveryRequest
  deriving DecidableEq, Repr

/-- `listEqualUnordered` of `src/unnamed/part_004`: the two lists have equal
length, and every element of `b` is a member of the set of elements of `a`
(the Go code materialises `a` as a `map[string]struct{}` and probes it with
each element of `b`; membership in that set is exactly `List.contains`). -/
def listEqualUnordered (a : List String) (b : List String) : Bool :=
  if a.length ≠ b.length then
    false
  else
    b.all (fun c => a.contains c)

/-- The connection-side state that `shouldRespond` reads and writes: the
proxy's watched-resources map, the two metrics it can bump, and the nack
callback (modelled as a count of invocations, guarded — as in the Go — by
the presence of `s.InternalGen`). -/
structure AdsState where
  watched : String → Option WatchedResource
  rejects : Nat
  expiredNonces : Nat
  nacksRecorded : Nat
  hasInternalGen : Bool

/-- `shouldRespond` of `src/unnamed/part_004` (lines 289–358): decides
whether an inbound discovery request warrants a response and updates the
watched-resource state.  Returns the decision together with the new state.
Logging is elided; the metric increments and the nack callback are kept. -/
def shouldRespond (s : AdsState) (request : DiscoveryRequest) : Bool × AdsState :=
  -- If there is an error in the request, the previous response was rejected.
  if request.ErrorDetail.isSome then
    (false,
      { s with
        rejects := s.rejects + 1
        nacksRecorded := if s.hasInternalGen then s.nacksRecorded + 1 else s.nacksRecorded })
  -- This is a first request - initialize typeUrl watches.
  else if request.ResponseNonce = "" then
    (true,
      { s with
        watched := fun t =>
          if t = request.TypeUrl then
            some { TypeUrl := request.TypeUrl, ResourceNames := request.ResourceNames
                   NonceSent := "", VersionSent := "", NonceAcked := "", VersionAcked := ""
                   LastRequest := some request }
          else s.watched t })
  else
    match s.watched request.TypeUrl with
    -- Envoy reconnected: a nonce is present but the server has no state.
    | none =>
      (true,
        { s with
          watched := fun t =>
            if t = request.TypeUrl then
              some { TypeUrl := request.TypeUrl, ResourceNames := request.ResourceNames
                     NonceSent := "", VersionSent := "", NonceAcked := "", VersionAcked := ""
                     LastRequest := some request }
            else s.watched t })
    | some previousInfo =>
      -- Mismatched nonce: an expired/stale nonce, do not respond.
      if request.ResponseNonce ≠ previousInfo.NonceSent then
        (false, { s with expiredNonces := s.expiredNonces + 1 })
      else
        -- Nonce match: an ACK. Record it and respond only on a resource change.
        let previousResources := previousInfo.ResourceNames
        let s' : AdsState :=
          { s with
            watched := fun t =>
              if t = request.TypeUrl then
                some { previousInfo with
                       VersionAcked := request.VersionInfo
                       NonceAcked := request.ResponseNonce
                       ResourceNames := request.ResourceNames
                       LastRequest := some request }
              else s.watched t }
        if listEqualUnordered previousResources request.ResourceNames then
          (false, s')
        else
          (true, s')

/-! ## Push requests and their merge law (`src/pilot/pkg/model/push_context.go`) -/

/-- The closed set of config kinds that `updateContext` discriminates on
(`gvk.*` plus the four gateway-API kinds); `other` stands for any further
`GroupVersionKind` the switch ignores. -/
inductive Gvk where
  | ServiceEntry
  | DestinationRule
  | VirtualService
  | Gateway
  | Sidecar
  | EnvoyFilter
  | AuthorizationPolicy
  | RequestAuthentication
  | PeerAuthentication
  | K8sHTTPRoute
  | K8sTCPRoute
  | K8sGateway
  | K8sGatewayClass
  | other (name : String)
  deriving DecidableEq, Repr

/-- `model.ConfigKey`: the hashable (kind, name, namespace) triple that the
`ConfigsUpdated` sets hold. -/
structure ConfigKey where
  kind : Gvk
  name : String
  Namespace : String
  deriving DecidableEq, Repr

/-- `model.TriggerReason` is a string type. -/
abbrev TriggerReason := String

/-- `model.PushRequest`.  `ConfigsUpdated` is the Go `map[ConfigKey]struct{}`,
i.e. a finite set (empty meaning "everything"); `Push` is the nilable
snapshot pointer, abstracted to an identifier; `Start` is the start time. -/
structure PushRequest where
  Full : Bool
  ConfigsUpdated : Finset ConfigKey
  Push : Option Nat
  Start : Nat
  Reason : List TriggerReason
  deriving DecidableEq

/-- The `ConfigsUpdated` block of `Merge`: the two sets are united only when
both are non-empty (`len(...) > 0` on both Go maps); otherwise the merged
set is left empty ("everything"). -/
def cuMerge (x y : Finset ConfigKey) : Finset ConfigKey :=
  if 0 < x.card ∧ 0 < y.card then x ∪ y else ∅

/-- `(*PushRequest).Merge` (push_context.go lines 263–297).  The receiver and
the argument are nilable, hence `Option` on both sides. -/
def PushRequest.Merge : Option PushRequest → Option PushRequest → Option PushRequest
  | none, other => other
  | some first, none => some first
  | some first, some other =>
    some
      { -- Keep the first (older) start time
        Start := first.Start
        -- If either is full we need a full push
        Full := first.Full || other.Full
        -- The other push context is presumed to be later and more up to date
        Push := other.Push
        -- Merge the two reasons, without deduplication
        Reason := first.Reason ++ other.Reason
        ConfigsUpdated := cuMerge first.ConfigsUpdated other.ConfigsUpdated }

/-- The equivalence on merged requests that the spec's merge-associativity
law uses: field-wise on `Full`, on `Reason` as a multiset, and on
`ConfigsUpdated` as a set (`Finset` equality), with nil equivalent only to
nil. -/
def ReqEquiv : Option PushRequest → Option PushRequest → Prop
  | none, none => True
  | some a, some b =>
    a.Full = b.Full ∧ a.Reason.Perm b.Reason ∧ a.ConfigsUpdated = b.ConfigsUpdated
  | _, _ => False

/-! ## The push-context snapshot engine (`src/pilot/pkg/model/push_context.go`)

`visibility.Instance` is a string (`"*"` public, `"."` private, `"~"` none)
and a `map[visibility.Instance]bool` built by inserting `true` at a list of
keys is carried as that key list.  The per-class index fields of
`PushContext` are grouped into one sub-structure per `init*` pass (the Go
struct keeps them flat, with a "move to a sub struct" TODO); classes whose
internal structure no claim looks at (virtual services, authn/authz, envoy
filters, gateways, sidecar scopes, service accounts, mesh networks,
cluster-local hosts) are abstracted to opaque `Nat` values that their pass
reads off the environment. -/

/-- `visibility.Public` is the string `"*"`. -/
def visPublic : String := "*"

/-- `visibility.Private` is the string `"."`. -/
def visPrivate : String := "."

/-- `visibility.None` is the string `"~"`. -/
def visNone : String := "~"

/-- The fields of `ServiceAttributes` the claims use: the owning namespace
and the `ExportTo` visibility set (the key set of the Go
`map[visibility.Instance]bool`, whose stored values are always `true`). -/
structure ServiceAttributes where
  Namespace : String
  ExportTo : List String
  deriving DecidableEq, Repr

/-- `model.Service`, restricted to the fields `initServiceRegistry` and the
lookups read: hostname, attributes and creation time. -/
structure Service where
  Hostname : String
  Attributes : ServiceAttributes
  CreationTime : Nat
  deriving DecidableEq, Repr

/-- A merged destination-rule config; its contents are opaque to the claims,
only identity matters, so it is an identifier. -/
abbrev DestRuleConfig := Nat

/-- `processedDestRules`: the per-namespace destination-rule bucket.
`hosts` is the pre-sorted (most-specific-first) host list; `exportTo` gives,
per host, the key set of the visibility map; `destRule` the merged rule. -/
structure ProcessedDestRules where
  hosts : List String
  exportTo : String → List String
  destRule : String → Option DestRuleConfig

/-- The fields of `meshconfig.MeshConfig` the embedded code reads. -/
structure MeshConfig where
  RootNamespace : String
  DefaultServiceExportTo : Option (List String)
  DefaultVirtualServiceExportTo : Option (List String)
  DefaultDestinationRuleExportTo : Option (List String)

/-- The node type of a proxy (`model.NodeType`); only the `sidecar` value is
discriminated on by the embedded code. -/
inductive ProxyType where
  | SidecarProxy
  | Router
  deriving DecidableEq, Repr

/-- The two members of `model.SidecarScope` the embedded code calls:
its destination-rule lookup and its service list. -/
structure SidecarScope where
  destinationRule : String → Option DestRuleConfig
  services : List Service

/-- `model.Proxy`, restricted to what `DestinationRule`/`Services` read.
The Go field `Type` is `ptype` here (`Type` is a Lean keyword). -/
structure Proxy where
  ConfigNamespace : String
  ptype : ProxyType
  SidecarScope : Option SidecarScope

/-- The `init*` passes of a snapshot build, for the order-of-passes claims;
a build records in the snapshot the passes it ran, in order. -/
inductive InitPass where
  | serviceRegistry
  | virtualServices
  | destinationRules
  | authn
  | authz
  | envoyFilters
  | gateways
  | sidecarScopes
  deriving DecidableEq, Repr

/-- The service-registry fields of `PushContext` (written by
`initServiceRegistry`, copied as a block by `updateContext`). -/
structure ServiceIndex where
  privateServicesByNamespace : String → List Service
  publicServices : List Service
  servicesExportedToNamespace : String → List Service
  ServiceByHostnameAndNamespace : String → String → Option Service
  ServiceByHostname : String → Option Service
  ServiceAccounts : Nat

/-- The virtual-service fields of `PushContext`; their contents are opaque
to the claims. -/
structure VirtualServiceIndex where
  virtualServicesExportedToNamespaceByGateway : Nat
  privateVirtualServicesByNamespaceAndGateway : Nat
  publicVirtualServicesByGateway : Nat
  deriving DecidableEq, Repr

/-- The destination-rule fields of `PushContext` (written by
`initDestinationRules`/`SetDestinationRules`, which always sets
`rootNamespaceLocalDestRules` to a non-nil value, so it is not optional). -/
structure DestRuleIndex where
  namespaceLocalDestRules : String → Option ProcessedDestRules
  exportedDestRulesByNamespace : String → Option ProcessedDestRules
  rootNamespaceLocalDestRules : ProcessedDestRules

/-- The gateway fields of `PushContext`; opaque to the claims. -/
structure GatewayIndex where
  gatewaysByNamespace : Nat
  allGateways : Nat
  deriving DecidableEq, Repr

/-- `model.PushContext`, restricted to the fields the claims touch.  Locks,
proxy-status maps and the store interfaces are elided; `trace` is an added
observation listing the `init*` passes that built this snapshot. -/
structure PushContext where
  defaultServiceExportTo : String → Bool
  defaultVirtualServiceExportTo : String → Bool
  defaultDestinationRuleExportTo : String → Bool
  svc : ServiceIndex
  vs : VirtualServiceIndex
  dr : DestRuleIndex
  clusterLocalHosts : Nat
  sidecarsByNamespace : Nat
  envoyFiltersByNamespace : Nat
  gw : GatewayIndex
  AuthzPolicies : Nat
  AuthnBetaPolicies : Nat
  Mesh : MeshConfig
  Networks : Nat
  initDone : Bool
  Version : String
  networkGateways : Nat
  trace : List InitPass

/-- The environment (`model.Environment`) as the snapshot build consumes it:
the store's service list, plus the values the abstracted `init*` passes
produce.  Store errors abort a build in Go and decide none of the claims,
so the environment is carried already fetched. -/
structure Environment where
  services : List Service
  serviceAccounts : Nat
  vs : VirtualServiceIndex
  dr : DestRuleIndex
  authnBetaPolicies : Nat
  authzPolicies : Nat
  envoyFiltersByNamespace : Nat
  gw : GatewayIndex
  sidecarsByNamespace : Nat
  mesh : MeshConfig
  networks : Nat
  version : String
  networkGateways : Nat
  clusterLocalHosts : Nat

/-- `sortServicesByCreationTime`: ascending stable sort by creation time.
Membership (all the claims need) is invariant under the sort. -/
def sortServicesByCreationTime (services : List Service) : List Service :=
  services.mergeSort (fun a b => a.CreationTime ≤ b.CreationTime)

/-- One iteration of the `for exportTo := range s.Attributes.ExportTo` loop of
`initServiceRegistry`: an exportTo of `"."` (or the service's own namespace)
is effectively private, any other entry names a target namespace. -/
def addServiceByExportKey (ns : String) (s : Service) (si : ServiceIndex)
    (exportTo : String) : ServiceIndex :=
  if exportTo = visPrivate ∨ exportTo = ns then
    { si with privateServicesByNamespace := fun n =>
        if n = ns then si.privateServicesByNamespace n ++ [s]
        else si.privateServicesByNamespace n }
  else
    { si with servicesExportedToNamespace := fun n =>
        if n = exportTo then si.servicesExportedToNamespace n ++ [s]
        else si.servicesExportedToNamespace n }

/-- The tail of the `initServiceRegistry` loop body: index the service by
hostname and by (hostname, namespace). -/
def registerServiceByHostname (s : Service) (si : ServiceIndex) : ServiceIndex :=
  { si with
    ServiceByHostnameAndNamespace := fun h n =>
      if h = s.Hostname ∧ n = s.Attributes.Namespace then some s
      else si.ServiceByHostnameAndNamespace h n
    ServiceByHostname := fun h =>
      if h = s.Hostname then some s else si.ServiceByHostname h }

/-- The body of the `for _, s := range allServices` loop of
`initServiceRegistry` (lines 1003–1041); `d` is the snapshot's
`defaultServiceExportTo` map.  The `exportTo *` and `exportTo ~` branches
`continue` the loop, skipping the hostname registration. -/
def processService (d : String → Bool) (si : ServiceIndex) (s : Service) : ServiceIndex :=
  let ns := s.Attributes.Namespace
  if s.Attributes.ExportTo.isEmpty then
    let si :=
      if d visPrivate then
        { si with privateServicesByNamespace := fun n =>
            if n = ns then si.privateServicesByNamespace n ++ [s]
            else si.privateServicesByNamespace n }
      else if d visPublic then
        { si with publicServices := si.publicServices ++ [s] }
      else si
    registerServiceByHostname s si
  else if s.Attributes.ExportTo.contains visPublic then
    -- exportTo *: make public, ignore all other exportTos, `continue`
    { si with publicServices := si.publicServices ++ [s] }
  else if s.Attributes.ExportTo.contains visNone then
    -- exportTo ~: not visible to anyone, `continue`
    si
  else
    registerServiceByHostname s (s.Attributes.ExportTo.foldl (addServiceByExportKey ns s) si)

/-- `initServiceRegistry` (lines 996–1043): bucket the store's services by
visibility and index them; `initServiceAccounts` is folded into the opaque
`ServiceAccounts` value. -/
def initServiceRegistry (env : Environment) (ps : PushContext) : PushContext :=
  let allServices := sortServicesByCreationTime env.services
  { ps with
    svc := { allServices.foldl (processService ps.defaultServiceExportTo) ps.svc with
             ServiceAccounts := env.serviceAccounts }
    trace := ps.trace ++ [InitPass.serviceRegistry] }

/-- `initVirtualServices`: rebuilds the three virtual-service indices. -/
def initVirtualServices (env : Environment) (ps : PushContext) : PushContext :=
  { ps with vs := env.vs, trace := ps.trace ++ [InitPass.virtualServices] }

/-- `initDestinationRules` / `SetDestinationRules`: rebuilds the three
destination-rule buckets. -/
def initDestinationRules (env : Environment) (ps : PushContext) : PushContext :=
  { ps with dr := env.dr, trace := ps.trace ++ [InitPass.destinationRules] }

/-- `initAuthnPolicies`: rebuilds the (beta) authn policy index. -/
def initAuthnPolicies (env : Environment) (ps : PushContext) : PushContext :=
  { ps with AuthnBetaPolicies := env.authnBetaPolicies, trace := ps.trace ++ [InitPass.authn] }

/-- `initAuthorizationPolicies`: rebuilds the authz policy index. -/
def initAuthorizationPolicies (env : Environment) (ps : PushContext) : PushContext :=
  { ps with AuthzPolicies := env.authzPolicies, trace := ps.trace ++ [InitPass.authz] }

/-- `initEnvoyFilters`: rebuilds the per-namespace envoy-filter index. -/
def initEnvoyFilters (env : Environment) (ps : PushContext) : PushContext :=
  { ps with envoyFiltersByNamespace := env.envoyFiltersByNamespace
            trace := ps.trace ++ [InitPass.envoyFilters] }

/-- `initGateways`: rebuilds the gateway indices. -/
def initGateways (env : Environment) (ps : PushContext) : PushContext :=
  { ps with gw := env.gw, trace := ps.trace ++ [InitPass.gateways] }

/-- `initSidecarScopes`: rebuilds the per-namespace sidecar scopes
(depends on services, virtual services and destination rules, so it runs
last). -/
def initSidecarScopes (env : Environment) (ps : PushContext) : PushContext :=
  { ps with sidecarsByNamespace := env.sidecarsByNamespace
            trace := ps.trace ++ [InitPass.sidecarScopes] }

/-- `createNewContext` (lines 840–875): the full build, running every
`init*` pass in the fixed order, sidecar scopes last. -/
def createNewContext (env : Environment) (ps : PushContext) : PushContext :=
  initSidecarScopes env
    (initGateways env
      (initEnvoyFilters env
        (initAuthorizationPolicies env
          (initAuthnPolicies env
            (initDestinationRules env
              (initVirtualServices env
                (initServiceRegistry env ps)))))))

/-- Kinds that set `servicesChanged` in `updateContext`'s switch. -/
def marksServices : Gvk → Bool
  | Gvk.ServiceEntry => true
  | _ => false

/-- Kinds that set `virtualServicesChanged`: `VirtualService` and the four
gateway-API kinds. -/
def marksVirtualServices : Gvk → Bool
  | Gvk.VirtualService | Gvk.K8sHTTPRoute | Gvk.K8sTCPRoute
  | Gvk.K8sGateway | Gvk.K8sGatewayClass => true
  | _ => false

/-- Kinds that set `destinationRulesChanged`. -/
def marksDestinationRules : Gvk → Bool
  | Gvk.DestinationRule => true
  | _ => false

/-- Kinds that set `gatewayChanged`: `Gateway` and the four gateway-API
kinds. -/
def marksGateways : Gvk → Bool
  | Gvk.Gateway | Gvk.K8sHTTPRoute | Gvk.K8sTCPRoute
  | Gvk.K8sGateway | Gvk.K8sGatewayClass => true
  | _ => false

/-- Kinds that set `sidecarsChanged`. -/
def marksSidecars : Gvk → Bool
  | Gvk.Sidecar => true
  | _ => false

/-- Kinds that set `envoyFiltersChanged`. -/
def marksEnvoyFilters : Gvk → Bool
  | Gvk.EnvoyFilter => true
  | _ => false

/-- Kinds that set `authzChanged`. -/
def marksAuthz : Gvk → Bool
  | Gvk.AuthorizationPolicy => true
  | _ => false

/-- Kinds that set `authnChanged`. -/
def marksAuthn : Gvk → Bool
  | Gvk.RequestAuthentication | Gvk.PeerAuthentication => true
  | _ => false

/-- The `xChanged` flag computed by `updateContext`'s loop over
`ConfigsUpdated`: some updated key's kind marks the class. -/
def classChanged (marks : Gvk → Bool) (pushReq : PushRequest) : Bool :=
  decide (∃ c ∈ pushReq.ConfigsUpdated, marks c.kind = true)

/-- The `servicesChanged` block of `updateContext`: rebuild the service
registry, or copy the old snapshot's service fields. -/
def updateServicesStep (env : Environment) (oldPushContext : PushContext)
    (pushReq : PushRequest) (ps : PushContext) : PushContext :=
  if classChanged marksServices pushReq then initServiceRegistry env ps
  else { ps with svc := oldPushContext.svc }

/-- The `virtualServicesChanged` block of `updateContext`. -/
def updateVirtualServicesStep (env : Environment) (oldPushContext : PushContext)
    (pushReq : PushRequest) (ps : PushContext) : PushContext :=
  if classChanged marksVirtualServices pushReq then initVirtualServices env ps
  else { ps with vs := oldPushContext.vs }

/-- The `destinationRulesChanged` block of `updateContext`. -/
def updateDestinationRulesStep (env : Environment) (oldPushContext : PushContext)
    (pushReq : PushRequest) (ps : PushContext) : PushContext :=
  if classChanged marksDestinationRules pushReq then initDestinationRules env ps
  else { ps with dr := oldPushContext.dr }

/-- The `authnChanged` block of `updateContext`. -/
def updateAuthnStep (env : Environment) (oldPushContext : PushContext)
    (pushReq : PushRequest) (ps : PushContext) : PushContext :=
  if classChanged marksAuthn pushReq then initAuthnPolicies env ps
  else { ps with AuthnBetaPolicies := oldPushContext.AuthnBetaPolicies }

/-- The `authzChanged` block of `updateContext`. -/
def updateAuthzStep (env : Environment) (oldPushContext : PushContext)
    (pushReq : PushRequest) (ps : PushContext) : PushContext :=
  if classChanged marksAuthz pushReq then initAuthorizationPolicies env ps
  else { ps with AuthzPolicies := oldPushContext.AuthzPolicies }

/-- The `envoyFiltersChanged` block of `updateContext`. -/
def updateEnvoyFiltersStep (env : Environment) (oldPushContext : PushContext)
    (pushReq : PushRequest) (ps : PushContext) : PushContext :=
  if classChanged marksEnvoyFilters pushReq then initEnvoyFilters env ps
  else { ps with envoyFiltersByNamespace := oldPushContext.envoyFiltersByNamespace }

/-- The `gatewayChanged` block of `updateContext`. -/
def updateGatewaysStep (env : Environment) (oldPushContext : PushContext)
    (pushReq : PushRequest) (ps : PushContext) : PushContext :=
  if classChanged marksGateways pushReq then initGateways env ps
  else { ps with gw := oldPushContext.gw }

/-- The final block of `updateContext`: sidecars need updating if services,
virtual services, destination rules, or the sidecar configs change. -/
def updateSidecarScopesStep (env : Environment) (oldPushContext : PushContext)
    (pushReq : PushRequest) (ps : PushContext) : PushContext :=
  if classChanged marksServices pushReq || classChanged marksVirtualServices pushReq
      || classChanged marksDestinationRules pushReq || classChanged marksSidecars pushReq then
    initSidecarScopes env ps
  else
    { ps with sidecarsByNamespace := oldPushContext.sidecarsByNamespace }

/-- `updateContext` (lines 877–992): the incremental build, as the Go
sequence of per-class conditional blocks; every class whose `xChanged` flag
is false copies the old snapshot's fields (in Go, field by field; here the
per-class block), and sidecar scopes run last. -/
def updateContext (env : Environment) (oldPushContext : PushContext)
    (pushReq : PushRequest) (ps : PushContext) : PushContext :=
  updateSidecarScopesStep env oldPushContext pushReq
    (updateGatewaysStep env oldPushContext pushReq
      (updateEnvoyFiltersStep env oldPushContext pushReq
        (updateAuthzStep env oldPushContext pushReq
          (updateAuthnStep env oldPushContext pushReq
            (updateDestinationRulesStep env oldPushContext pushReq
              (updateVirtualServicesStep env oldPushContext pushReq
                (updateServicesStep env oldPushContext pushReq ps)))))))

/-- The key-set view of a `Mesh.Default*ExportTo` list: the Go code inserts
`true` at every listed visibility, and defaults to `{*}` when the mesh
leaves the list nil. -/
def exportMapOfDefault : Option (List String) → String → Bool
  | some es => fun v => es.contains v
  | none => fun v => v = visPublic

/-- `initDefaultExportMaps` (lines 1196–1222): synthesize the three default
export maps from the mesh config. -/
def initDefaultExportMaps (ps : PushContext) : PushContext :=
  { ps with
    defaultDestinationRuleExportTo := exportMapOfDefault ps.Mesh.DefaultDestinationRuleExportTo
    defaultServiceExportTo := exportMapOfDefault ps.Mesh.DefaultServiceExportTo
    defaultVirtualServiceExportTo := exportMapOfDefault ps.Mesh.DefaultVirtualServiceExportTo }

/-- `initMeshNetworks`, abstracted to its one written field. -/
def initMeshNetworks (env : Environment) (ps : PushContext) : PushContext :=
  { ps with networkGateways := env.networkGateways }

/-- `initClusterLocalHosts`, abstracted to its one written field. -/
def initClusterLocalHosts (env : Environment) (ps : PushContext) : PushContext :=
  { ps with clusterLocalHosts := env.clusterLocalHosts }

/-- The branch condition of `InitContext` (line 822): build from scratch
when there is no request, no old snapshot, the old snapshot is not
initialized, or the request's `ConfigsUpdated` is empty. -/
def initContextFullBuild : Option PushContext → Option PushRequest → Bool
  | oldPushContext, pushReq =>
    match pushReq, oldPushContext with
    | some req, some old => !old.initDone || req.ConfigsUpdated.card = 0
    | _, _ => true

/-- `InitContext` (lines 802–838).  Returns the built snapshot together
with an observation of which branch ran: `true` when `createNewContext`
(the full build) was taken.  The guarding mutex is elided (the claims are
about a single call); the `initDone` early return is kept. -/
def InitContext (env : Environment) (oldPushContext : Option PushContext)
    (pushReq : Option PushRequest) (ps : PushContext) : PushContext × Bool :=
  if ps.initDone then (ps, false)
  else
    let ps := { ps with Mesh := env.mesh, Networks := env.networks, Version := env.version }
    -- Must be initialized first, as the init passes use the default export maps
    let ps := initDefaultExportMaps ps
    let ps :=
      match pushReq, oldPushContext with
      | some req, some old =>
        if !old.initDone || req.ConfigsUpdated.card = 0 then createNewContext env ps
        else updateContext env old req ps
      | _, _ => createNewContext env ps
    let ps := initMeshNetworks env ps
    let ps := initClusterLocalHosts env ps
    ({ ps with initDone := true }, initContextFullBuild oldPushContext pushReq)

/-- `PushContext.Services` (lines 579–602): the services visible to a proxy.
A user-supplied sidecar scope on a sidecar proxy delegates to the scope;
otherwise the proxy-namespace private bucket, the exported-to-the-proxy
bucket and the public bucket are concatenated in that order.  (The Go
nil-proxy branch, which concatenates every private bucket, is not embedded:
the embedded caller, `DestinationRule`, always passes a proxy.) -/
def PushContext.Services (ps : PushContext) (proxy : Proxy) : List Service :=
  let unscoped :=
    ps.svc.privateServicesByNamespace proxy.ConfigNamespace
      ++ ps.svc.servicesExportedToNamespace proxy.ConfigNamespace
      ++ ps.svc.publicServices
  match proxy.SidecarScope with
  | some sc => if proxy.ptype = ProxyType.SidecarProxy then sc.services else unscoped
  | none => unscoped

/-- Modelled from the spec: `MostSpecificHostMatch` is code of this
repository that is not among the files under src (only its callers are).
The spec says each destination-rule bucket carries a host list pre-sorted
most-specific-first so that lookup by hostname is a linear scan with early
exit, the first match winning; the wildcard host-matching relation itself
is abstracted as the parameter `hostMatch`. -/
def MostSpecificHostMatch (hostMatch : String → String → Bool) (needle : String)
    (stack : List String) : Option String :=
  stack.find? (fun h => hostMatch needle h)

/-- `getExportedDestinationRuleFromNamespace` (lines 754–765): look the
hostname up in the owning namespace's exported bucket; the matched rule is
returned only when its per-host exportTo set is empty, contains public, or
contains the client namespace. -/
def getExportedDestinationRuleFromNamespace (hostMatch : String → String → Bool)
    (ps : PushContext) (owningNamespace : String) (hostname : String)
    (clientNamespace : String) : Option DestRuleConfig :=
  match ps.dr.exportedDestRulesByNamespace owningNamespace with
  | none => none
  | some pdr =>
    match MostSpecificHostMatch hostMatch hostname pdr.hosts with
    | none => none
    | some specificHostname =>
      let exportToMap := pdr.exportTo specificHostname
      if exportToMap.isEmpty ∨ exportToMap.contains visPublic
          ∨ exportToMap.contains clientNamespace then
        pdr.destRule specificHostname
      else none

/-- Steps 2–4 of `DestinationRule` (lines 723–752): resolve the service's
owning namespace (falling back to a scan of the visible services when the
attribute is empty), try that namespace's exported bucket, then the root
namespace's exported bucket. -/
def destinationRuleExportedSearch (hostMatch : String → String → Bool)
    (ps : PushContext) (proxy : Proxy) (service : Service) : Option DestRuleConfig :=
  let svcNs0 := service.Attributes.Namespace
  let svcNs :=
    if svcNs0 = "" then
      match (ps.Services proxy).find?
          (fun svc => service.Hostname = svc.Hostname ∧ svc.Attributes.Namespace ≠ "") with
      | some svc => svc.Attributes.Namespace
      | none => ""
    else svcNs0
  let step3 :=
    if svcNs ≠ "" then
      getExportedDestinationRuleFromNamespace hostMatch ps svcNs service.Hostname proxy.ConfigNamespace
    else none
  match step3 with
  | some out => some out
  | none =>
    getExportedDestinationRuleFromNamespace hostMatch ps ps.Mesh.RootNamespace
      service.Hostname proxy.ConfigNamespace

/-- The body of `DestinationRule` after the sidecar-scope delegation check:
step 1 (the namespace-local bucket for a non-root proxy, the
root-namespace-local bucket for a root-namespace proxy, with early return
on a host match) and then the exported-bucket search. -/
def destinationRuleUnscoped (hostMatch : String → String → Bool)
    (ps : PushContext) (proxy : Proxy) (service : Service) : Option DestRuleConfig :=
  if proxy.ConfigNamespace ≠ ps.Mesh.RootNamespace then
    match ps.dr.namespaceLocalDestRules proxy.ConfigNamespace with
    | some pdr =>
      match MostSpecificHostMatch hostMatch service.Hostname pdr.hosts with
      | some hostname => pdr.destRule hostname
      | none => destinationRuleExportedSearch hostMatch ps proxy service
    | none => destinationRuleExportedSearch hostMatch ps proxy service
  else
    match MostSpecificHostMatch hostMatch service.Hostname ps.dr.rootNamespaceLocalDestRules.hosts with
    | some hostname => ps.dr.rootNamespaceLocalDestRules.destRule hostname
    | none => destinationRuleExportedSearch hostMatch ps proxy service

/-- `PushContext.DestinationRule` (lines 681–752).  The service pointer is
nilable; a user-supplied sidecar scope on a sidecar proxy delegates to the
scope; otherwise the four-step bucket search runs. -/
def PushContext.DestinationRule (hostMatch : String → String → Bool)
    (ps : PushContext) (proxy : Proxy) (service : Option Service) : Option DestRuleConfig :=
  match service with
  | none => none
  | some service =>
    match proxy.SidecarScope with
    | some sc =>
      if proxy.ptype = ProxyType.SidecarProxy then sc.destinationRule service.Hostname
      else destinationRuleUnscoped hostMatch ps proxy service
    | none => destinationRuleUnscoped hostMatch ps proxy service

/-! ### Spec-side statements for the lookup and registry claims -/

/-- The export admission check as the spec words it: a rule is admitted for
a client namespace when its per-host exportTo set is empty, contains
public, or contains that namespace. -/
def specExportAdmits (exportToSet : List String) (clientNamespace : String) : Bool :=
  exportToSet.isEmpty || exportToSet.contains visPublic || exportToSet.contains clientNamespace

/-- The spec's one-bucket lookup: the most-specific host match in the
bucket's pre-sorted list, then that host's merged rule. -/
def specBucketLookup (hostMatch : String → String → Bool)
    (pdr : ProcessedDestRules) (hostname : String) : Option DestRuleConfig :=
  (MostSpecificHostMatch hostMatch hostname pdr.hosts).bind pdr.destRule

/-- The spec's exported-bucket lookup: the most-specific host match in the
owning namespace's exported bucket, kept only under the export admission
check. -/
def specExportedLookup (hostMatch : String → String → Bool) (ps : PushContext)
    (owningNamespace : String) (hostname : String) (clientNamespace : String) :
    Option DestRuleConfig :=
  match ps.dr.exportedDestRulesByNamespace owningNamespace with
  | none => none
  | some pdr =>
    (MostSpecificHostMatch hostMatch hostname pdr.hosts).bind fun h =>
      if specExportAdmits (pdr.exportTo h) clientNamespace then pdr.destRule h else none

/-- The destination-rule search order as the spec words it: (a) the proxy's
own namespace-local bucket when the proxy is not in the root namespace,
(b) the root-namespace-local bucket when it is; then (c) the service's
owning namespace's exported bucket and (d) the root namespace's exported
bucket, both under the export admission check; the first hit wins, `none`
when nothing matches. -/
def specDestinationRuleSearch (hostMatch : String → String → Bool)
    (ps : PushContext) (proxy : Proxy) (service : Service) : Option DestRuleConfig :=
  let localHit :=
    if proxy.ConfigNamespace ≠ ps.Mesh.RootNamespace then
      (ps.dr.namespaceLocalDestRules proxy.ConfigNamespace).bind
        (fun pdr => specBucketLookup hostMatch pdr service.Hostname)
    else
      specBucketLookup hostMatch ps.dr.rootNamespaceLocalDestRules service.Hostname
  (localHit.orElse fun _ =>
    specExportedLookup hostMatch ps service.Attributes.Namespace service.Hostname
      proxy.ConfigNamespace).orElse fun _ =>
    specExportedLookup hostMatch ps ps.Mesh.RootNamespace service.Hostname proxy.ConfigNamespace

/-- Well-formedness of one destination-rule bucket, true of every bucket
`SetDestinationRules` builds: the `hosts` list holds exactly the keys of
the `destRule` map, so a listed host always has a rule. -/
def PdrWellFormed (pdr : ProcessedDestRules) : Prop :=
  ∀ h ∈ pdr.hosts, (pdr.destRule h).isSome = true

/-- Well-formedness of the two namespace-local bucket families of a
snapshot (the exported family needs no such condition for the claims). -/
def LocalDestRulesWellFormed (ps : PushContext) : Prop :=
  (∀ ns pdr, ps.dr.namespaceLocalDestRules ns = some pdr → PdrWellFormed pdr)
    ∧ PdrWellFormed ps.dr.rootNamespaceLocalDestRules

/-- A service sits in one of the three visibility buckets of a service
index: public, private-to-some-namespace, or exported-to-some-namespace. -/
def ServiceInUnion (si : ServiceIndex) (s : Service) : Prop :=
  s ∈ si.publicServices
    ∨ (∃ ns, s ∈ si.privateServicesByNamespace ns)
    ∨ (∃ ns, s ∈ si.servicesExportedToNamespace ns)

/-- Whether `initServiceRegistry` files a service into any visibility
bucket, given the default service-export map `d`: a service with an empty
exportTo set is filed iff the default map admits private or public; one
with a non-empty set is filed unless it contains none without public. -/
def serviceIsIndexed (d : String → Bool) (s : Service) : Bool :=
  if s.Attributes.ExportTo.isEmpty then
    d visPrivate || d visPublic
  else
    s.Attributes.ExportTo.contains visPublic || !(s.Attributes.ExportTo.contains visNone)

/-! ## The distribution-status tracker (`src/unnamed/part_001`) -/

/-- `v1alpha1.IstioCondition`, restricted to the fields `ReconcileStatuses`
writes and compares; the Go field `Type` is `condType` here.  The probe and
transition times come from the controller's clock. -/
structure IstioCondition where
  condType : String
  status : String
  lastProbeTime : Nat
  lastTransitionTime : Nat
  message : String
  deriving DecidableEq, Repr

/-- `v1alpha1.IstioStatus`, restricted to its condition list. -/
structure IstioStatus where
  conditions : List IstioCondition
  deriving DecidableEq, Repr

/-- `Progress`: acked instances vs total instances for one resource. -/
structure Progress where
  AckedInstances : Nat
  TotalInstances : Nat
  deriving DecidableEq, Repr

/-- `boolToConditionStatus`. -/
def boolToConditionStatus (b : Bool) : String :=
  if b then "True" else "False"

/-- The desired `Reconciled` condition `ReconcileStatuses` computes: status
`True` exactly when acked equals total, message
`"<acked>/<total> proxies up to date."`, both times from the clock. -/
def mkDesiredCondition (desired : Progress) (clock : Nat) : IstioCondition :=
  { condType := "Reconciled"
    status := boolToConditionStatus (decide (desired.AckedInstances = desired.TotalInstances))
    lastProbeTime := clock
    lastTransitionTime := clock
    message := toString desired.AckedInstances ++ "/" ++ toString desired.TotalInstances
      ++ " proxies up to date." }

/-- The scan of `currentStatus.Conditions` in `ReconcileStatuses`: the Go
loop has no break, so it keeps the LAST condition of type `"Reconciled"`
together with its index. -/
def findReconciled (conds : List IstioCondition) : Option (Nat × IstioCondition) :=
  conds.enum.foldl
    (fun acc p => if p.2.condType = "Reconciled" then some p else acc) none

/-- `ReconcileStatuses` (src/unnamed/part_001 lines 938–976): compute the
desired `Reconciled` condition and report whether the status subresource
needs a write.  `current` is the outcome of `GetTypedStatus` on the
object's status (`none` when the status is unparseable, in which case the
status is overwritten wholesale); `clock` is the controller clock. -/
def ReconcileStatuses (current : Option IstioStatus) (desired : Progress)
    (clock : Nat) : Bool × IstioStatus :=
  let desiredCondition := mkDesiredCondition desired clock
  match current with
  | none =>
    -- the status field is in an unexpected state; overwrite it
    (true, { conditions := [desiredCondition] })
  | some currentStatus =>
    match findReconciled currentStatus.conditions with
    | none =>
      (true, { conditions := currentStatus.conditions ++ [desiredCondition] })
    | some (conditionIndex, currentCondition) =>
      let needsReconcile : Bool :=
        decide (currentCondition.message ≠ desiredCondition.message)
          || decide (currentCondition.status ≠ desiredCondition.status)
      (needsReconcile,
        { conditions := currentStatus.conditions.set conditionIndex desiredCondition })

/-- The last `Reconciled` condition of a status, if any. -/
def lastReconciledCondition (st : IstioStatus) : Option IstioCondition :=
  (findReconciled st.conditions).map Prod.snd

/-- When the spec says a status write is needed: the current status is
unparseable, lacks a `Reconciled` condition, or that condition's message or
truth value differs from the computed one. -/
def SpecNeedsWrite (current : Option IstioStatus) (desired : Progress)
    (clock : Nat) : Prop :=
  match current with
  | none => True
  | some st =>
    match lastReconciledCondition st with
    | none => True
    | some c =>
      c.message ≠ (mkDesiredCondition desired clock).message
        ∨ c.status ≠ (mkDesiredCondition desired clock).status

/-! ## Concrete instances used by the witness and counterexample theorems -/

/-- A watched-resource record for type-url `"cds"`, nonce `"n1"` sent,
watching `["a", "b"]`. -/
def watchedC1 : WatchedResource :=
  { TypeUrl := "cds", ResourceNames := ["a", "b"], NonceSent := "n1", VersionSent := "v1"
    NonceAcked := "", VersionAcked := "", LastRequest := none }

/-- A connection state watching only `"cds"` through `watchedC1`. -/
def adsStateC1 : AdsState :=
  { watched := fun t => if t = "cds" then some watchedC1 else none
    rejects := 0, expiredNonces := 0, nacksRecorded := 0, hasInternalGen := true }

/-- An ACK of nonce `"n1"` that also grows the resource set to
`["a", "b", "c"]`. -/
def requestC1 : DiscoveryRequest :=
  { TypeUrl := "cds", VersionInfo := "v1", ResponseNonce := "n1"
    ResourceNames := ["a", "b", "c"], ErrorDetail := none }

/-- A NACK: the same nonce but with an error detail set. -/
def requestC7 : DiscoveryRequest :=
  { TypeUrl := "cds", VersionInfo := "v1", ResponseNonce := "n1"
    ResourceNames := ["a", "b"], ErrorDetail := some 3 }

/-- A watched-resource record watching `["x", "x", "y"]` (duplicates). -/
def watchedDup : WatchedResource :=
  { TypeUrl := "cds", ResourceNames := ["x", "x", "y"], NonceSent := "n1", VersionSent := "v1"
    NonceAcked := "", VersionAcked := "", LastRequest := none }

/-- A connection state watching `"cds"` through `watchedDup`. -/
def adsStateDup : AdsState :=
  { watched := fun t => if t = "cds" then some watchedDup else none
    rejects := 0, expiredNonces := 0, nacksRecorded := 0, hasInternalGen := false }

/-- An ACK whose resource list `["y", "y", "x"]` differs from the watched
`["x", "x", "y"]` only in the multiplicity of duplicated names. -/
def requestDup : DiscoveryRequest :=
  { TypeUrl := "cds", VersionInfo := "v1", ResponseNonce := "n1"
    ResourceNames := ["y", "y", "x"], ErrorDetail := none }

/-- The empty service index a fresh snapshot starts from. -/
def emptyServiceIndex : ServiceIndex :=
  { privateServicesByNamespace := fun _ => []
    publicServices := []
    servicesExportedToNamespace := fun _ => []
    ServiceByHostnameAndNamespace := fun _ _ => none
    ServiceByHostname := fun _ => none
    ServiceAccounts := 0 }

/-- An empty destination-rule bucket (`newProcessedDestRules`). -/
def emptyProcessedDestRules : ProcessedDestRules :=
  { hosts := [], exportTo := fun _ => [], destRule := fun _ => none }

/-- An empty destination-rule index. -/
def emptyDestRuleIndex : DestRuleIndex :=
  { namespaceLocalDestRules := fun _ => none
    exportedDestRulesByNamespace := fun _ => none
    rootNamespaceLocalDestRules := emptyProcessedDestRules }

/-- A mesh config with root namespace `istio-system` and nil default export
lists (so every default export map is `{*}`). -/
def baseMesh : MeshConfig :=
  { RootNamespace := "istio-system", DefaultServiceExportTo := none
    DefaultVirtualServiceExportTo := none, DefaultDestinationRuleExportTo := none }

/-- A fresh, uninitialized snapshot with empty indices and mesh-default
(public) export maps. -/
def basePushContext : PushContext :=
  { defaultServiceExportTo := fun v => v = visPublic
    defaultVirtualServiceExportTo := fun v => v = visPublic
    defaultDestinationRuleExportTo := fun v => v = visPublic
    svc := emptyServiceIndex
    vs := { virtualServicesExportedToNamespaceByGateway := 0
            privateVirtualServicesByNamespaceAndGateway := 0
            publicVirtualServicesByGateway := 0 }
    dr := emptyDestRuleIndex
    clusterLocalHosts := 0, sidecarsByNamespace := 0, envoyFiltersByNamespace := 0
    gw := { gatewaysByNamespace := 0, allGateways := 0 }
    AuthzPolicies := 0, AuthnBetaPolicies := 0
    Mesh := baseMesh, Networks := 0, initDone := false, Version := ""
    networkGateways := 0, trace := [] }

/-- A concrete environment whose abstract index values are all `1`, so a
pass that ran is visible against the zeros of `basePushContext`. -/
def baseEnvironment : Environment :=
  { services := [], serviceAccounts := 1
    vs := { virtualServicesExportedToNamespaceByGateway := 1
            privateVirtualServicesByNamespaceAndGateway := 1
            publicVirtualServicesByGateway := 1 }
    dr := emptyDestRuleIndex
    authnBetaPolicies := 1, authzPolicies := 1, envoyFiltersByNamespace := 1
    gw := { gatewaysByNamespace := 1, allGateways := 1 }
    sidecarsByNamespace := 1, mesh := baseMesh, networks := 1, version := "v1"
    networkGateways := 1, clusterLocalHosts := 1 }

/-- A service whose explicit exportTo is exactly `{~}` (visible nowhere). -/
def svcNoneC6 : Service :=
  { Hostname := "a.ns", Attributes := { Namespace := "ns", ExportTo := [visNone] }
    CreationTime := 0 }

/-- A store holding only the exportTo-`~` service. -/
def envC6 : Environment :=
  { baseEnvironment with services := [svcNoneC6] }

/-- A service with an empty exportTo set (takes the mesh default). -/
def svcPlainC6 : Service :=
  { Hostname := "b.ns", Attributes := { Namespace := "ns", ExportTo := [] }
    CreationTime := 0 }

/-- A store holding only the plain service. -/
def envC6w : Environment :=
  { baseEnvironment with services := [svcPlainC6] }

/-- Exact host matching, a concrete instance of the abstract wildcard
host-matching relation. -/
def eqMatch : String → String → Bool := fun a b => a = b

/-- A destination-rule bucket holding one rule (id 7) for `svc.ns1`. -/
def pdrC3 : ProcessedDestRules :=
  { hosts := ["svc.ns1"], exportTo := fun _ => []
    destRule := fun h => if h = "svc.ns1" then some 7 else none }

/-- A snapshot whose only destination rule lives in the namespace-local
bucket of `ns1`. -/
def psC3 : PushContext :=
  { basePushContext with
    dr := { namespaceLocalDestRules := fun ns => if ns = "ns1" then some pdrC3 else none
            exportedDestRulesByNamespace := fun _ => none
            rootNamespaceLocalDestRules := emptyProcessedDestRules } }

/-- A router proxy in `ns1` with no user-supplied sidecar scope. -/
def proxyC3 : Proxy :=
  { ConfigNamespace := "ns1", ptype := ProxyType.Router, SidecarScope := none }

/-- A service `svc.ns1` owned by `ns1`. -/
def serviceC3 : Service :=
  { Hostname := "svc.ns1", Attributes := { Namespace := "ns1", ExportTo := [] }
    CreationTime := 0 }

end IstioProof

namespace IstioProof

/-! ## Theorems -/

/-- C1: for an inbound request with no error detail whose non-empty
`ResponseNonce` equals the `NonceSent` of the existing watched resource for
its type-url, `shouldRespond` records the request's `VersionInfo` as
`VersionAcked` and its `ResponseNonce` as `NonceAcked` (and the new
resource names and last request), and returns true — a response is sent —
exactly when the request's `ResourceNames` fail the code's
order-independent comparison `listEqualUnordered` against the previously
watched names; when they pass it, it is a pure ACK and no response is
sent. -/
theorem shouldRespond_ack_records_and_responds_iff_change
    (s : AdsState) (request : DiscoveryRequest) (w : WatchedResource)
    (herr : request.ErrorDetail = none)
    (hnonce : request.ResponseNonce ≠ "")
    (hw : s.watched request.TypeUrl = some w)
    (hmatch : request.ResponseNonce = w.NonceSent) :
    (shouldRespond s request).2.watched request.TypeUrl =
      some { w with
             VersionAcked := request.VersionInfo
             NonceAcked := request.ResponseNonce
             ResourceNames := request.ResourceNames
             LastRequest := some request }
      ∧ (shouldRespond s request).1
          = !listEqualUnordered w.ResourceNames request.ResourceNames := by
  have hnonce' : w.NonceSent ≠ "" := hmatch ▸ hnonce
  cases hle : listEqualUnordered w.ResourceNames request.ResourceNames <;>
    simp [shouldRespond, herr, hw, hmatch, hnonce', hle]

/-- Witness for C1: the concrete ACK `requestC1` against `adsStateC1` hits
every hypothesis and both conclusions. -/
theorem shouldRespond_ack_witness :
    (shouldRespond adsStateC1 requestC1).2.watched "cds" =
      some { watchedC1 with
             VersionAcked := "v1", NonceAcked := "n1"
             ResourceNames := ["a", "b", "c"], LastRequest := some requestC1 }
      ∧ (shouldRespond adsStateC1 requestC1).1
          = !listEqualUnordered watchedC1.ResourceNames requestC1.ResourceNames :=
  shouldRespond_ack_records_and_responds_iff_change adsStateC1 requestC1 watchedC1
    rfl (by decide) rfl rfl

/-- C7: a request with `ErrorDetail` set is a NACK: `shouldRespond` bumps
the reject metric, invokes the nack callback when an internal generator is
present, returns false (no response), and leaves the whole watched-resource
map — in particular `NonceAcked` for that type-url — unchanged. -/
theorem shouldRespond_nack (s : AdsState) (request : DiscoveryRequest) (e : Int)
    (he : request.ErrorDetail = some e) :
    (shouldRespond s request).1 = false
      ∧ (shouldRespond s request).2.watched = s.watched
      ∧ (shouldRespond s request).2.rejects = s.rejects + 1
      ∧ (shouldRespond s request).2.nacksRecorded
          = (if s.hasInternalGen then s.nacksRecorded + 1 else s.nacksRecorded)
      ∧ (∀ w, s.watched request.TypeUrl = some w →
          ((shouldRespond s request).2.watched request.TypeUrl).map
            WatchedResource.NonceAcked = some w.NonceAcked) := by
  unfold shouldRespond
  rw [he]
  refine ⟨rfl, rfl, rfl, rfl, ?_⟩
  intro w hw
  simp [hw]

/-- Witness for C7: the concrete NACK `requestC7` against `adsStateC1`. -/
theorem shouldRespond_nack_witness :
    (shouldRespond adsStateC1 requestC7).1 = false
      ∧ (shouldRespond adsStateC1 requestC7).2.watched = adsStateC1.watched
      ∧ (shouldRespond adsStateC1 requestC7).2.rejects = adsStateC1.rejects + 1
      ∧ (shouldRespond adsStateC1 requestC7).2.nacksRecorded
          = (if adsStateC1.hasInternalGen then adsStateC1.nacksRecorded + 1
             else adsStateC1.nacksRecorded)
      ∧ (∀ w, adsStateC1.watched requestC7.TypeUrl = some w →
          ((shouldRespond adsStateC1 requestC7).2.watched requestC7.TypeUrl).map
            WatchedResource.NonceAcked = some w.NonceAcked) :=
  shouldRespond_nack adsStateC1 requestC7 3 rfl

/-- C10: `listEqualUnordered a b` is true exactly when the lists have equal
length and every element of `b` occurs in `a`; it is not multiset
equality — `["x","x","y"]` and `["y","y","x"]` are accepted though they are
not permutations of one another — so an ACK whose resource list differs
from the watched one only in the multiplicity of duplicated names is
treated as a pure ACK and suppresses the response. -/
theorem listEqualUnordered_spec :
    (∀ a b : List String,
        listEqualUnordered a b = true ↔ (a.length = b.length ∧ ∀ x ∈ b, x ∈ a))
      ∧ listEqualUnordered ["x", "x", "y"] ["y", "y", "x"] = true
      ∧ ¬ (["x", "x", "y"] : List String).Perm ["y", "y", "x"]
      ∧ (shouldRespond adsStateDup requestDup).1 = false := by
  refine ⟨?_, by decide, by decide, ?_⟩
  · intro a b
    unfold listEqualUnordered
    by_cases hl : a.length = b.length <;> simp [hl]
  · rfl

/-- C2: merging two non-nil push requests keeps the first request's start,
ORs the full flags, takes the later request's snapshot, concatenates the
reasons without deduplication, and unites the `ConfigsUpdated` sets exactly
when both are non-empty, leaving the merged set empty (meaning everything)
otherwise. -/
theorem pushRequest_merge_fields (a b : PushRequest) :
    PushRequest.Merge (some a) (some b) =
      some
        { Full := a.Full || b.Full
          Start := a.Start
          Push := b.Push
          Reason := a.Reason ++ b.Reason
          ConfigsUpdated :=
            if a.ConfigsUpdated ≠ ∅ ∧ b.ConfigsUpdated ≠ ∅ then
              a.ConfigsUpdated ∪ b.ConfigsUpdated
            else ∅ } := by
  simp [PushRequest.Merge, cuMerge, Finset.card_pos, Finset.nonempty_iff_ne_empty]

/-- The `ConfigsUpdated` merge ("union unless either side is empty") is
associative. -/
theorem cuMerge_assoc (x y z : Finset ConfigKey) :
    cuMerge (cuMerge x y) z = cuMerge x (cuMerge y z) := by
  simp only [cuMerge, Finset.card_pos, Finset.nonempty_iff_ne_empty]
  by_cases hx : x = ∅ <;> by_cases hy : y = ∅ <;> by_cases hz : z = ∅ <;>
    simp [hx, hy, hz, Finset.union_eq_empty, Finset.union_assoc]

/-- C8: merging push requests is associative under the spec's equivalence —
field-wise equality on `Full`, `Reason` compared as a multiset, and
`ConfigsUpdated` compared as a set with "empty means everything"
preserved. -/
theorem pushRequest_merge_assoc (a b c : PushRequest) :
    ReqEquiv
      (PushRequest.Merge (PushRequest.Merge (some a) (some b)) (some c))
      (PushRequest.Merge (some a) (PushRequest.Merge (some b) (some c))) := by
  simp [PushRequest.Merge, ReqEquiv, Bool.or_assoc, cuMerge_assoc]

/-- Every `some` produced by the `findReconciled` fold is either the
starting accumulator or an element of the scanned list. -/
theorem findReconciled_fold_mem (l : List (Nat × IstioCondition)) :
    ∀ (acc : Option (Nat × IstioCondition)) (p : Nat × IstioCondition),
      l.foldl (fun acc q => if q.2.condType = "Reconciled" then some q else acc) acc = some p →
      acc = some p ∨ p ∈ l := by
  induction l with
  | nil => exact fun acc p h => Or.inl h
  | cons q l ih =>
    intro acc p h
    rcases ih _ p h with h' | h'
    · by_cases hq : q.2.condType = "Reconciled"
      · simp only [hq, if_true] at h'
        exact Or.inr (by simp [← Option.some.inj h'])
      · simp only [hq, if_false] at h'
        exact Or.inl h'
    · exact Or.inr (List.mem_cons_of_mem q h')

/-- The index `findReconciled` returns is a valid index into the scanned
condition list. -/
theorem findReconciled_index_lt (conds : List IstioCondition) (i : Nat)
    (c : IstioCondition) (h : findReconciled conds = some (i, c)) :
    i < conds.length := by
  rcases findReconciled_fold_mem conds.enum none (i, c) h with h' | h'
  · exact absurd h' (by simp)
  · have hg := List.mem_enum_iff_getElem?.mp h'
    by_contra hlt
    rw [List.getElem?_eq_none (Nat.le_of_not_lt hlt)] at hg
    exact Option.noConfusion hg

/-- C9: `ReconcileStatuses` reports that a status write is needed exactly
when the current status is unparseable, lacks a `Reconciled` condition, or
that condition's message or truth value differs from the computed one; and
the status it produces carries the computed condition — of type
`Reconciled`, true exactly when acked equals total, with message
`"<acked>/<total> proxies up to date."`. -/
theorem reconcileStatuses_spec (current : Option IstioStatus) (desired : Progress)
    (clock : Nat) :
    ((ReconcileStatuses current desired clock).1 = true
        ↔ SpecNeedsWrite current desired clock)
      ∧ mkDesiredCondition desired clock ∈ (ReconcileStatuses current desired clock).2.conditions
      ∧ (mkDesiredCondition desired clock).condType = "Reconciled"
      ∧ ((mkDesiredCondition desired clock).status = "True"
          ↔ desired.AckedInstances = desired.TotalInstances)
      ∧ (mkDesiredCondition desired clock).message
          = toString desired.AckedInstances ++ "/" ++ toString desired.TotalInstances
            ++ " proxies up to date." := by
  refine ⟨?_, ?_, rfl, ?_, rfl⟩
  · cases current with
    | none => simp [ReconcileStatuses, SpecNeedsWrite]
    | some st =>
      cases hfr : findReconciled st.conditions with
      | none => simp [ReconcileStatuses, SpecNeedsWrite, lastReconciledCondition, hfr]
      | some p =>
        cases p with
        | mk i c =>
          simp [ReconcileStatuses, SpecNeedsWrite, lastReconciledCondition, hfr,
            Bool.or_eq_true, decide_eq_true_iff]
  · cases current with
    | none => simp [ReconcileStatuses]
    | some st =>
      cases hfr : findReconciled st.conditions with
      | none => simp [ReconcileStatuses, hfr]
      | some p =>
        cases p with
        | mk i c =>
          simpa [ReconcileStatuses, hfr] using
            List.mem_set st.conditions i (findReconciled_index_lt st.conditions i c hfr)
              (mkDesiredCondition desired clock)
  · unfold mkDesiredCondition boolToConditionStatus
    by_cases h : desired.AckedInstances = desired.TotalInstances <;> simp [h]

/-- Hostname registration does not touch the three visibility buckets. -/
theorem serviceInUnion_register (t : Service) (si : ServiceIndex) (s : Service) :
    ServiceInUnion (registerServiceByHostname t si) s ↔ ServiceInUnion si s :=
  Iff.rfl

/-- Membership across a point-update of a namespace-keyed bucket map. -/
theorem exists_mem_update {l : String → List Service} {ns : String} {t s : Service} :
    (∃ n, s ∈ (if n = ns then l n ++ [t] else l n)) ↔ (∃ n, s ∈ l n) ∨ s = t := by
  constructor
  · rintro ⟨n, hn⟩
    by_cases h : n = ns
    · subst h
      simp only [if_true] at hn
      rcases List.mem_append.mp hn with h' | h'
      · exact Or.inl ⟨n, h'⟩
      · exact Or.inr (by simpa using h')
    · rw [if_neg h] at hn
      exact Or.inl ⟨n, hn⟩
  · rintro (⟨n, hn⟩ | rfl)
    · refine ⟨n, ?_⟩
      by_cases h : n = ns
      · subst h
        simp [List.mem_append_left, hn]
      · simp [h, hn]
    · exact ⟨ns, by simp⟩

/-- One exportTo key of a service adds exactly that service to the union. -/
theorem serviceInUnion_addKey (ns : String) (t : Service) (si : ServiceIndex)
    (k : String) (s : Service) :
    ServiceInUnion (addServiceByExportKey ns t si k) s ↔ ServiceInUnion si s ∨ s = t := by
  unfold addServiceByExportKey ServiceInUnion
  split
  · rw [exists_mem_update]
    tauto
  · rw [exists_mem_update]
    tauto

/-- Folding a non-empty exportTo key list adds exactly the service. -/
theorem serviceInUnion_foldKeys (ns : String) (t : Service) (si : ServiceIndex)
    (keys : List String) (s : Service) :
    ServiceInUnion (keys.foldl (addServiceByExportKey ns t) si) s
      ↔ ServiceInUnion si s ∨ (s = t ∧ keys ≠ []) := by
  induction keys generalizing si with
  | nil => simp
  | cons k ks ih =>
    rw [List.foldl_cons, ih, serviceInUnion_addKey]
    simp only [ne_eq, reduceCtorEq, not_false_eq_true, and_true]
    tauto

/-- One `initServiceRegistry` loop iteration files the processed service
into the union exactly when `serviceIsIndexed` says so, and moves no other
service. -/
theorem serviceInUnion_processService (d : String → Bool) (si : ServiceIndex)
    (t s : Service) :
    ServiceInUnion (processService d si t) s
      ↔ ServiceInUnion si s ∨ (s = t ∧ serviceIsIndexed d t = true) := by
  unfold processService serviceIsIndexed
  by_cases he : t.Attributes.ExportTo.isEmpty
  · simp only [he, if_true]
    by_cases hp : d visPrivate
    · rw [serviceInUnion_register]
      simp only [hp, if_true, Bool.true_or]
      unfold ServiceInUnion
      rw [exists_mem_update]
      tauto
    · by_cases hb : d visPublic
      · rw [serviceInUnion_register]
        simp only [hp, hb, Bool.false_eq_true, if_false, if_true, Bool.or_true]
        unfold ServiceInUnion
        simp only [List.mem_append, List.mem_singleton]
        tauto
      · rw [serviceInUnion_register]
        simp [hp, hb]
  · simp only [he, Bool.false_eq_true, if_false]
    by_cases hpub : t.Attributes.ExportTo.contains visPublic
    · simp only [hpub, if_true, Bool.true_or]
      unfold ServiceInUnion
      simp only [List.mem_append, List.mem_singleton]
      tauto
    · have hpub' : visPublic ∉ t.Attributes.ExportTo := by simpa using hpub
      by_cases hnone : t.Attributes.ExportTo.contains visNone
      · have hnone' : visNone ∈ t.Attributes.ExportTo := by simpa using hnone
        simp [hpub, hnone, hpub', hnone']
      · simp only [hpub, hnone, Bool.false_eq_true, if_false]
        rw [serviceInUnion_register, serviceInUnion_foldKeys]
        have hne : t.Attributes.ExportTo ≠ [] := by
          intro hc
          rw [hc] at he
          exact he rfl
        simp [hne, hpub, hnone]

/-- Folding the whole service list: a service ends in the union exactly
when it started there or appears in the list and is indexed. -/
theorem serviceInUnion_foldProcess (d : String → Bool) (si : ServiceIndex)
    (l : List Service) (s : Service) :
    ServiceInUnion (l.foldl (processService d) si) s
      ↔ ServiceInUnion si s ∨ (s ∈ l ∧ serviceIsIndexed d s = true) := by
  induction l generalizing si with
  | nil => simp
  | cons t ts ih =>
    rw [List.foldl_cons, ih, serviceInUnion_processService]
    constructor
    · rintro ((h | ⟨rfl, hi⟩) | ⟨hm, hi⟩)
      · exact Or.inl h
      · exact Or.inr ⟨List.mem_cons_self _ _, hi⟩
      · exact Or.inr ⟨List.mem_cons_of_mem _ hm, hi⟩
    · rintro (h | ⟨hm, hi⟩)
      · exact Or.inl (Or.inl h)
      · rcases List.mem_cons.mp hm with rfl | hm'
        · exact Or.inl (Or.inr ⟨rfl, hi⟩)
        · exact Or.inr ⟨hm', hi⟩

/-- C6 (amended): starting from empty buckets, `initServiceRegistry` files
a service into the union of `publicServices`, the
`privateServicesByNamespace` values and the `servicesExportedToNamespace`
values exactly when it is in the store's list and `serviceIsIndexed` holds
of it — i.e. its exportTo is empty and the mesh default admits private or
public, or its exportTo is non-empty and contains public or does not
contain none.  Consequently a service whose exportTo contains `~` without
`*` is absent from all three buckets. -/
theorem initServiceRegistry_union (env : Environment) (ps : PushContext) (s : Service)
    (hpriv : ∀ ns, ps.svc.privateServicesByNamespace ns = [])
    (hpub : ps.svc.publicServices = [])
    (hexp : ∀ ns, ps.svc.servicesExportedToNamespace ns = []) :
    (ServiceInUnion (initServiceRegistry env ps).svc s
        ↔ s ∈ env.services ∧ serviceIsIndexed ps.defaultServiceExportTo s = true)
      ∧ (s.Attributes.ExportTo.contains visNone = true →
          s.Attributes.ExportTo.contains visPublic = false →
          ¬ ServiceInUnion (initServiceRegistry env ps).svc s) := by
  have hbase : ¬ ServiceInUnion ps.svc s := by
    simp [ServiceInUnion, hpriv, hpub, hexp]
  have hmain : ServiceInUnion (initServiceRegistry env ps).svc s
      ↔ s ∈ env.services ∧ serviceIsIndexed ps.defaultServiceExportTo s = true := by
    have hstep :
        ServiceInUnion (initServiceRegistry env ps).svc s
          ↔ ServiceInUnion
              ((sortServicesByCreationTime env.services).foldl
                (processService ps.defaultServiceExportTo) ps.svc) s :=
      Iff.rfl
    rw [hstep, serviceInUnion_foldProcess]
    simp [hbase, sortServicesByCreationTime, List.mem_mergeSort]
  refine ⟨hmain, ?_⟩
  intro hnone hpublic h
  rcases hmain.mp h with ⟨-, hidx⟩
  unfold serviceIsIndexed at hidx
  have hne : ¬ s.Attributes.ExportTo.isEmpty = true := by
    intro hc
    rw [List.isEmpty_iff] at hc
    rw [hc] at hnone
    simp [List.contains] at hnone
  have hnone' : visNone ∈ s.Attributes.ExportTo := by simpa using hnone
  have hpublic' : visPublic ∉ s.Attributes.ExportTo := by simpa using hpublic
  simp [hne, hnone', hpublic'] at hidx

/-- Counterexample to C6 as stated: with the mesh-default (public) export
map and a store holding one service whose exportTo is `{~}`, the service is
in the store's list but in none of the three buckets, so the union is not
the store's service list. -/
theorem initServiceRegistry_union_counterexample :
    svcNoneC6 ∈ envC6.services
      ∧ ¬ ServiceInUnion (initServiceRegistry envC6 basePushContext).svc svcNoneC6 := by
  constructor
  · simp [envC6]
  · intro h
    have hstep :
        ServiceInUnion (initServiceRegistry envC6 basePushContext).svc svcNoneC6
          ↔ ServiceInUnion
              ((sortServicesByCreationTime envC6.services).foldl
                (processService basePushContext.defaultServiceExportTo)
                basePushContext.svc) svcNoneC6 :=
      Iff.rfl
    rw [hstep, serviceInUnion_foldProcess] at h
    rcases h with h | ⟨-, hidx⟩
    · simp [ServiceInUnion, basePushContext, emptyServiceIndex] at h
    · simp [serviceIsIndexed, svcNoneC6, visNone, visPublic] at hidx

/-- Witness for C6 (amended): the concrete one-service store `envC6w` over
the fresh snapshot discharges the empty-bucket hypotheses, and its plain
service (empty exportTo under a public mesh default) is in the union. -/
theorem initServiceRegistry_union_witness :
    (ServiceInUnion (initServiceRegistry envC6w basePushContext).svc svcPlainC6
        ↔ svcPlainC6 ∈ envC6w.services
            ∧ serviceIsIndexed basePushContext.defaultServiceExportTo svcPlainC6 = true)
      ∧ (svcPlainC6.Attributes.ExportTo.contains visNone = true →
          svcPlainC6.Attributes.ExportTo.contains visPublic = false →
          ¬ ServiceInUnion (initServiceRegistry envC6w basePushContext).svc svcPlainC6) :=
  initServiceRegistry_union envC6w basePushContext svcPlainC6
    (fun _ => rfl) rfl (fun _ => rfl)

/-- The code's exported-bucket lookup coincides with the spec's: the export
admission condition of `getExportedDestinationRuleFromNamespace` is exactly
`specExportAdmits`. -/
theorem getExported_eq_specExportedLookup (hostMatch : String → String → Bool)
    (ps : PushContext) (ns hostname clientNamespace : String) :
    getExportedDestinationRuleFromNamespace hostMatch ps ns hostname clientNamespace
      = specExportedLookup hostMatch ps ns hostname clientNamespace := by
  unfold getExportedDestinationRuleFromNamespace specExportedLookup specExportAdmits
  cases ps.dr.exportedDestRulesByNamespace ns with
  | none => rfl
  | some pdr =>
    cases hm : MostSpecificHostMatch hostMatch hostname pdr.hosts with
    | none => simp [hm]
    | some sh =>
      simp only [hm, Option.some_bind]
      by_cases hc : (pdr.exportTo sh).isEmpty = true
          ∨ (pdr.exportTo sh).contains visPublic = true
          ∨ (pdr.exportTo sh).contains clientNamespace = true
      · rw [if_pos hc, if_pos (by simpa [Bool.or_eq_true, or_assoc] using hc)]
      · rw [if_neg hc, if_neg (by simpa [Bool.or_eq_true, or_assoc] using hc)]

/-- For a service with a non-empty owning namespace, steps 2–4 of the code
are the spec's (c)-then-(d) exported search. -/
theorem exportedSearch_eq_spec (hostMatch : String → String → Bool)
    (ps : PushContext) (proxy : Proxy) (service : Service)
    (hns : service.Attributes.Namespace ≠ "") :
    destinationRuleExportedSearch hostMatch ps proxy service
      = (specExportedLookup hostMatch ps service.Attributes.Namespace service.Hostname
          proxy.ConfigNamespace).orElse
          (fun _ => specExportedLookup hostMatch ps ps.Mesh.RootNamespace service.Hostname
            proxy.ConfigNamespace) := by
  have h0 : (service.Attributes.Namespace = "") = False := by simp [hns]
  simp only [destinationRuleExportedSearch, h0, if_false, ne_eq, not_false_eq_true, if_true,
    getExported_eq_specExportedLookup]
  cases hs : specExportedLookup hostMatch ps service.Attributes.Namespace service.Hostname
      proxy.ConfigNamespace with
  | none => simp [hs, Option.orElse]
  | some v => simp [hs, Option.orElse]

/-- C3: for a proxy that does not delegate to a user-supplied sidecar
scope, a non-nil service with a non-empty owning namespace, and a snapshot
whose local destination-rule buckets list only hosts that carry a rule (as
`SetDestinationRules` guarantees), `DestinationRule` is the spec's
four-step first-hit search: (a) the proxy's namespace-local bucket when the
proxy is outside the root namespace, (b) the root-namespace-local bucket
otherwise, then (c) the owning namespace's and (d) the root namespace's
exported buckets under the export admission check, `none` when nothing
matches. -/
theorem destinationRule_search_order (hostMatch : String → String → Bool)
    (ps : PushContext) (proxy : Proxy) (service : Service)
    (hscope : proxy.SidecarScope = none ∨ proxy.ptype ≠ ProxyType.SidecarProxy)
    (hns : service.Attributes.Namespace ≠ "")
    (hwf : LocalDestRulesWellFormed ps) :
    PushContext.DestinationRule hostMatch ps proxy (some service)
      = specDestinationRuleSearch hostMatch ps proxy service := by
  have hbody : destinationRuleUnscoped hostMatch ps proxy service
      = specDestinationRuleSearch hostMatch ps proxy service := by
    unfold destinationRuleUnscoped specDestinationRuleSearch
    by_cases hroot : proxy.ConfigNamespace ≠ ps.Mesh.RootNamespace
    · rw [if_pos hroot, if_pos hroot]
      cases hb : ps.dr.namespaceLocalDestRules proxy.ConfigNamespace with
      | none =>
        rw [exportedSearch_eq_spec hostMatch ps proxy service hns]
        rfl
      | some pdr =>
        cases hm : MostSpecificHostMatch hostMatch service.Hostname pdr.hosts with
        | none =>
          rw [exportedSearch_eq_spec hostMatch ps proxy service hns]
          simp [specBucketLookup, hm, Option.orElse]
        | some h =>
          have hmem : h ∈ pdr.hosts :=
            List.mem_of_find?_eq_some hm
          obtain ⟨v, hv⟩ := Option.isSome_iff_exists.mp (hwf.1 _ pdr hb h hmem)
          simp [specBucketLookup, hm, hv, Option.orElse]
    · rw [if_neg hroot, if_neg hroot]
      cases hm : MostSpecificHostMatch hostMatch service.Hostname
          ps.dr.rootNamespaceLocalDestRules.hosts with
      | none =>
        rw [exportedSearch_eq_spec hostMatch ps proxy service hns]
        simp [specBucketLookup, hm, Option.orElse]
      | some h =>
        have hmem : h ∈ ps.dr.rootNamespaceLocalDestRules.hosts :=
          List.mem_of_find?_eq_some hm
        obtain ⟨v, hv⟩ := Option.isSome_iff_exists.mp (hwf.2 h hmem)
        simp [specBucketLookup, hm, hv, Option.orElse]
  cases hsc : proxy.SidecarScope with
  | none =>
    simpa [PushContext.DestinationRule, hsc] using hbody
  | some sc =>
    have hptype : proxy.ptype ≠ ProxyType.SidecarProxy := by
      rcases hscope with h | h
      · rw [hsc] at h
        exact absurd h (by simp)
      · exact h
    simpa [PushContext.DestinationRule, hsc, hptype] using hbody

/-- Witness for C3: the concrete snapshot `psC3` with one namespace-local
rule, the router proxy `proxyC3` and the service `serviceC3` discharge
every hypothesis, and both searches find rule 7. -/
theorem destinationRule_search_order_witness :
    PushContext.DestinationRule eqMatch psC3 proxyC3 (some serviceC3)
      = specDestinationRuleSearch eqMatch psC3 proxyC3 serviceC3 :=
  destinationRule_search_order eqMatch psC3 proxyC3 serviceC3 (Or.inl rfl) (by decide)
    ⟨fun ns pdr hp => by
      by_cases h1 : ns = "ns1"
      · rw [show psC3.dr.namespaceLocalDestRules ns = some pdrC3 by simp [psC3, h1]] at hp
        intro h hh
        rw [← Option.some.inj hp] at hh
        simp only [pdrC3, List.mem_singleton] at hh
        rw [← Option.some.inj hp, hh]
        simp [pdrC3]
      · rw [show psC3.dr.namespaceLocalDestRules ns = none by simp [psC3, h1]] at hp
        exact Option.noConfusion hp,
     fun h hh => by simp [psC3, emptyProcessedDestRules] at hh⟩

/-- The trace a full build leaves behind: every `init*` pass in the fixed
order, sidecar scopes last. -/
theorem createNewContext_trace (env : Environment) (ps : PushContext) :
    (createNewContext env ps).trace =
      ps.trace ++
        [InitPass.serviceRegistry, InitPass.virtualServices, InitPass.destinationRules,
         InitPass.authn, InitPass.authz, InitPass.envoyFilters, InitPass.gateways,
         InitPass.sidecarScopes] := by
  simp [createNewContext, initServiceRegistry, initVirtualServices, initDestinationRules,
    initAuthnPolicies, initAuthorizationPolicies, initEnvoyFilters, initGateways,
    initSidecarScopes]

/-- C4: on an uninitialized snapshot, `InitContext` takes the full
`createNewContext` build exactly when the request is nil, the old snapshot
is nil or uninitialized, or the request's `ConfigsUpdated` is empty; and
the full build runs the `init*` passes in the fixed order service-registry,
virtual-services, destination-rules, authn, authz, envoy-filters, gateways,
sidecar-scopes (last). -/
theorem initContext_full_build (env : Environment) (oldPushContext : Option PushContext)
    (pushReq : Option PushRequest) (ps : PushContext)
    (hinit : ps.initDone = false) (htrace : ps.trace = []) :
    ((InitContext env oldPushContext pushReq ps).2 = true ↔
        (pushReq = none ∨ oldPushContext = none
          ∨ (∃ old, oldPushContext = some old ∧ old.initDone = false)
          ∨ (∃ req, pushReq = some req ∧ req.ConfigsUpdated = ∅)))
      ∧ ((InitContext env oldPushContext pushReq ps).2 = true →
          (InitContext env oldPushContext pushReq ps).1.trace =
            [InitPass.serviceRegistry, InitPass.virtualServices, InitPass.destinationRules,
             InitPass.authn, InitPass.authz, InitPass.envoyFilters, InitPass.gateways,
             InitPass.sidecarScopes]) := by
  constructor
  · cases pushReq with
    | none => simp [InitContext, initContextFullBuild, hinit]
    | some req =>
      cases oldPushContext with
      | none => simp [InitContext, initContextFullBuild, hinit]
      | some old =>
        simp [InitContext, initContextFullBuild, hinit, Finset.card_eq_zero,
          Bool.or_eq_true]
  · intro hfull
    cases pushReq with
    | none =>
      simp only [InitContext, hinit, Bool.false_eq_true, if_false,
        initMeshNetworks, initClusterLocalHosts]
      rw [createNewContext_trace]
      simp [initDefaultExportMaps, htrace]
    | some req =>
      cases oldPushContext with
      | none =>
        simp only [InitContext, hinit, Bool.false_eq_true, if_false,
          initMeshNetworks, initClusterLocalHosts]
        rw [createNewContext_trace]
        simp [initDefaultExportMaps, htrace]
      | some old =>
        by_cases hcond : (!old.initDone || req.ConfigsUpdated.card = 0) = true
        · simp only [InitContext, hinit, Bool.false_eq_true, if_false, hcond, if_true,
            initMeshNetworks, initClusterLocalHosts]
          rw [createNewContext_trace]
          simp [initDefaultExportMaps, htrace]
        · exfalso
          rw [show (InitContext env (some old) (some req) ps).2
              = initContextFullBuild (some old) (some req) by simp [InitContext, hinit]]
              at hfull
          simp only [initContextFullBuild] at hfull
          exact hcond hfull

/-- Witness for C4: a full build on the fresh `basePushContext` with no old
snapshot: the branch condition holds and the trace is the fixed pass
order. -/
theorem initContext_full_build_witness :
    ((InitContext baseEnvironment none none basePushContext).2 = true ↔
        ((none : Option PushRequest) = none ∨ (none : Option PushContext) = none
          ∨ (∃ old, (none : Option PushContext) = some old ∧ old.initDone = false)
          ∨ (∃ req, (none : Option PushRequest) = some req ∧ req.ConfigsUpdated = ∅)))
      ∧ ((InitContext baseEnvironment none none basePushContext).2 = true →
          (InitContext baseEnvironment none none basePushContext).1.trace =
            [InitPass.serviceRegistry, InitPass.virtualServices, InitPass.destinationRules,
             InitPass.authn, InitPass.authz, InitPass.envoyFilters, InitPass.gateways,
             InitPass.sidecarScopes]) :=
  initContext_full_build baseEnvironment none none basePushContext rfl rfl

/-- Trace of the services block: one tag when the flag is set. -/
theorem updateServicesStep_trace (env : Environment) (old : PushContext)
    (req : PushRequest) (ps : PushContext) :
    (updateServicesStep env old req ps).trace =
      ps.trace ++ (if classChanged marksServices req = true
        then [InitPass.serviceRegistry] else []) := by
  unfold updateServicesStep
  cases h : classChanged marksServices req <;> simp [h, initServiceRegistry]

/-- Trace of the virtual-services block. -/
theorem updateVirtualServicesStep_trace (env : Environment) (old : PushContext)
    (req : PushRequest) (ps : PushContext) :
    (updateVirtualServicesStep env old req ps).trace =
      ps.trace ++ (if classChanged marksVirtualServices req = true
        then [InitPass.virtualServices] else []) := by
  unfold updateVirtualServicesStep
  cases h : classChanged marksVirtualServices req <;> simp [h, initVirtualServices]

/-- Trace of the destination-rules block. -/
theorem updateDestinationRulesStep_trace (env : Environment) (old : PushContext)
    (req : PushRequest) (ps : PushContext) :
    (updateDestinationRulesStep env old req ps).trace =
      ps.trace ++ (if classChanged marksDestinationRules req = true
        then [InitPass.destinationRules] else []) := by
  unfold updateDestinationRulesStep
  cases h : classChanged marksDestinationRules req <;> simp [h, initDestinationRules]

/-- Trace of the authn block. -/
theorem updateAuthnStep_trace (env : Environment) (old : PushContext)
    (req : PushRequest) (ps : PushContext) :
    (updateAuthnStep env old req ps).trace =
      ps.trace ++ (if classChanged marksAuthn req = true then [InitPass.authn] else []) := by
  unfold updateAuthnStep
  cases h : classChanged marksAuthn req <;> simp [h, initAuthnPolicies]

/-- Trace of the authz block. -/
theorem updateAuthzStep_trace (env : Environment) (old : PushContext)
    (req : PushRequest) (ps : PushContext) :
    (updateAuthzStep env old req ps).trace =
      ps.trace ++ (if classChanged marksAuthz req = true then [InitPass.authz] else []) := by
  unfold updateAuthzStep
  cases h : classChanged marksAuthz req <;> simp [h, initAuthorizationPolicies]

/-- Trace of the envoy-filters block. -/
theorem updateEnvoyFiltersStep_trace (env : Environment) (old : PushContext)
    (req : PushRequest) (ps : PushContext) :
    (updateEnvoyFiltersStep env old req ps).trace =
      ps.trace ++ (if classChanged marksEnvoyFilters req = true
        then [InitPass.envoyFilters] else []) := by
  unfold updateEnvoyFiltersStep
  cases h : classChanged marksEnvoyFilters req <;> simp [h, initEnvoyFilters]

/-- Trace of the gateways block. -/
theorem updateGatewaysStep_trace (env : Environment) (old : PushContext)
    (req : PushRequest) (ps : PushContext) :
    (updateGatewaysStep env old req ps).trace =
      ps.trace ++ (if classChanged marksGateways req = true
        then [InitPass.gateways] else []) := by
  unfold updateGatewaysStep
  cases h : classChanged marksGateways req <;> simp [h, initGateways]

/-- Trace of the sidecar-scopes block. -/
theorem updateSidecarScopesStep_trace (env : Environment) (old : PushContext)
    (req : PushRequest) (ps : PushContext) :
    (updateSidecarScopesStep env old req ps).trace =
      ps.trace ++ (if (classChanged marksServices req || classChanged marksVirtualServices req
          || classChanged marksDestinationRules req
          || classChanged marksSidecars req) = true
        then [InitPass.sidecarScopes] else []) := by
  unfold updateSidecarScopesStep
  cases h : (classChanged marksServices req || classChanged marksVirtualServices req
      || classChanged marksDestinationRules req || classChanged marksSidecars req) <;>
    simp [h, initSidecarScopes]

/-- The trace an incremental build leaves behind: one tag per rebuilt
class, in pass order. -/
theorem updateContext_trace (env : Environment) (old : PushContext) (req : PushRequest)
    (ps : PushContext) :
    (updateContext env old req ps).trace =
      ps.trace
        ++ (if classChanged marksServices req = true then [InitPass.serviceRegistry] else [])
        ++ (if classChanged marksVirtualServices req = true then [InitPass.virtualServices] else [])
        ++ (if classChanged marksDestinationRules req = true then [InitPass.destinationRules] else [])
        ++ (if classChanged marksAuthn req = true then [InitPass.authn] else [])
        ++ (if classChanged marksAuthz req = true then [InitPass.authz] else [])
        ++ (if classChanged marksEnvoyFilters req = true then [InitPass.envoyFilters] else [])
        ++ (if classChanged marksGateways req = true then [InitPass.gateways] else [])
        ++ (if (classChanged marksServices req || classChanged marksVirtualServices req
                || classChanged marksDestinationRules req
                || classChanged marksSidecars req) = true then [InitPass.sidecarScopes] else []) := by
  unfold updateContext
  rw [updateSidecarScopesStep_trace, updateGatewaysStep_trace, updateEnvoyFiltersStep_trace,
    updateAuthzStep_trace, updateAuthnStep_trace, updateDestinationRulesStep_trace,
    updateVirtualServicesStep_trace, updateServicesStep_trace]

/-- The virtualservices block leaves `svc` untouched. -/
theorem updateVirtualServicesStep_svc (env : Environment) (old : PushContext)
    (req : PushRequest) (ps : PushContext) :
    (updateVirtualServicesStep env old req ps).svc = ps.svc := by
  unfold updateVirtualServicesStep
  split <;> rfl

/-- The destinationrules block leaves `svc` untouched. -/
theorem updateDestinationRulesStep_svc (env : Environment) (old : PushContext)
    (req : PushRequest) (ps : PushContext) :
    (updateDestinationRulesStep env old req ps).svc = ps.svc := by
  unfold updateDestinationRulesStep
  split <;> rfl

/-- The destinationrules block leaves `vs` untouched. -/
theorem updateDestinationRulesStep_vs (env : Environment) (old : PushContext)
    (req : PushRequest) (ps : PushContext) :
    (updateDestinationRulesStep env old req ps).vs = ps.vs := by
  unfold updateDestinationRulesStep
  split <;> rfl

/-- The authn block leaves `svc` untouched. -/
theorem updateAuthnStep_svc (env : Environment) (old : PushContext)
    (req : PushRequest) (ps : PushContext) :
    (updateAuthnStep env old req ps).svc = ps.svc := by
  unfold updateAuthnStep
  split <;> rfl

/-- The authn block leaves `vs` untouched. -/
theorem updateAuthnStep_vs (env : Environment) (old : PushContext)
    (req : PushRequest) (ps : PushContext) :
    (updateAuthnStep env old req ps).vs = ps.vs := by
  unfold updateAuthnStep
  split <;> rfl

/-- The authn block leaves `dr` untouched. -/
theorem updateAuthnStep_dr (env : Environment) (old : PushContext)
    (req : PushRequest) (ps : PushContext) :
    (updateAuthnStep env old req ps).dr = ps.dr := by
  unfold updateAuthnStep
  split <;> rfl

/-- The authz block leaves `svc` untouched. -/
theorem updateAuthzStep_svc (env : Environment) (old : PushContext)
    (req : PushRequest) (ps : PushContext) :
    (updateAuthzStep env old req ps).svc = ps.svc := by
  unfold updateAuthzStep
  split <;> rfl

/-- The authz block leaves `vs` untouched. -/
theorem updateAuthzStep_vs (env : Environment) (old : PushContext)
    (req : PushRequest) (ps : PushContext) :
    (updateAuthzStep env old req ps).vs = ps.vs := by
  unfold updateAuthzStep
  split <;> rfl

/-- The authz block leaves `dr` untouched. -/
theorem updateAuthzStep_dr (env : Environment) (old : PushContext)
    (req : PushRequest) (ps : PushContext) :
    (updateAuthzStep env old req ps).dr = ps.dr := by
  unfold updateAuthzStep
  split <;> rfl

/-- The authz block leaves `AuthnBetaPolicies` untouched. -/
theorem updateAuthzStep_AuthnBetaPolicies (env : Environment) (old : PushContext)
    (req : PushRequest) (ps : PushContext) :
    (updateAuthzStep env old req ps).AuthnBetaPolicies = ps.AuthnBetaPolicies := by
  unfold updateAuthzStep
  split <;> rfl

/-- The envoyfilters block leaves `svc` untouched. -/
theorem updateEnvoyFiltersStep_svc (env : Environment) (old : PushContext)
    (req : PushRequest) (ps : PushContext) :
    (updateEnvoyFiltersStep env old req ps).svc = ps.svc := by
  unfold updateEnvoyFiltersStep
  split <;> rfl

/-- The envoyfilters block leaves `vs` untouched. -/
theorem updateEnvoyFiltersStep_vs (env : Environment) (old : PushContext)
    (req : PushRequest) (ps : PushContext) :
    (updateEnvoyFiltersStep env old req ps).vs = ps.vs := by
  unfold updateEnvoyFiltersStep
  split <;> rfl

/-- The envoyfilters block leaves `dr` untouched. -/
theorem updateEnvoyFiltersStep_dr (env : Environment) (old : PushContext)
    (req : PushRequest) (ps : PushContext) :
    (updateEnvoyFiltersStep env old req ps).dr = ps.dr := by
  unfold updateEnvoyFiltersStep
  split <;> rfl

/-- The envoyfilters block leaves `AuthnBetaPolicies` untouched. -/
theorem updateEnvoyFiltersStep_AuthnBetaPolicies (env : Environment) (old : PushContext)
    (req : PushRequest) (ps : PushContext) :
    (updateEnvoyFiltersStep env old req ps).AuthnBetaPolicies = ps.AuthnBetaPolicies := by
  unfold updateEnvoyFiltersStep
  split <;> rfl

/-- The envoyfilters block leaves `AuthzPolicies` untouched. -/
theorem updateEnvoyFiltersStep_AuthzPolicies (env : Environment) (old : PushContext)
    (req : PushRequest) (ps : PushContext) :
    (updateEnvoyFiltersStep env old req ps).AuthzPolicies = ps.AuthzPolicies := by
  unfold updateEnvoyFiltersStep
  split <;> rfl

/-- The gateways block leaves `svc` untouched. -/
theorem updateGatewaysStep_svc (env : Environment) (old : PushContext)
    (req : PushRequest) (ps : PushContext) :
    (updateGatewaysStep env old req ps).svc = ps.svc := by
  unfold updateGatewaysStep
  split <;> rfl

/-- The gateways block leaves `vs` untouched. -/
theorem updateGatewaysStep_vs (env : Environment) (old : PushContext)
    (req : PushRequest) (ps : PushContext) :
    (updateGatewaysStep env old req ps).vs = ps.vs := by
  unfold updateGatewaysStep
  split <;> rfl

/-- The gateways block leaves `dr` untouched. -/
theorem updateGatewaysStep_dr (env : Environment) (old : PushContext)
    (req : PushRequest) (ps : PushContext) :
    (updateGatewaysStep env old req ps).dr = ps.dr := by
  unfold updateGatewaysStep
  split <;> rfl

/-- The gateways block leaves `AuthnBetaPolicies` untouched. -/
theorem updateGatewaysStep_AuthnBetaPolicies (env : Environment) (old : PushContext)
    (req : PushRequest) (ps : PushContext) :
    (updateGatewaysStep env old req ps).AuthnBetaPolicies = ps.AuthnBetaPolicies := by
  unfold updateGatewaysStep
  split <;> rfl

/-- The gateways block leaves `AuthzPolicies` untouched. -/
theorem updateGatewaysStep_AuthzPolicies (env : Environment) (old : PushContext)
    (req : PushRequest) (ps : PushContext) :
    (updateGatewaysStep env old req ps).AuthzPolicies = ps.AuthzPolicies := by
  unfold updateGatewaysStep
  split <;> rfl

/-- The gateways block leaves `envoyFiltersByNamespace` untouched. -/
theorem updateGatewaysStep_envoyFiltersByNamespace (env : Environment) (old : PushContext)
    (req : PushRequest) (ps : PushContext) :
    (updateGatewaysStep env old req ps).envoyFiltersByNamespace = ps.envoyFiltersByNamespace := by
  unfold updateGatewaysStep
  split <;> rfl

/-- The sidecar-scopes block leaves `svc` untouched. -/
theorem updateSidecarScopesStep_svc (env : Environment) (old : PushContext)
    (req : PushRequest) (ps : PushContext) :
    (updateSidecarScopesStep env old req ps).svc = ps.svc := by
  unfold updateSidecarScopesStep
  split <;> rfl

/-- The sidecar-scopes block leaves `vs` untouched. -/
theorem updateSidecarScopesStep_vs (env : Environment) (old : PushContext)
    (req : PushRequest) (ps : PushContext) :
    (updateSidecarScopesStep env old req ps).vs = ps.vs := by
  unfold updateSidecarScopesStep
  split <;> rfl

/-- The sidecar-scopes block leaves `dr` untouched. -/
theorem updateSidecarScopesStep_dr (env : Environment) (old : PushContext)
    (req : PushRequest) (ps : PushContext) :
    (updateSidecarScopesStep env old req ps).dr = ps.dr := by
  unfold updateSidecarScopesStep
  split <;> rfl

/-- The sidecar-scopes block leaves `AuthnBetaPolicies` untouched. -/
theorem updateSidecarScopesStep_AuthnBetaPolicies (env : Environment) (old : PushContext)
    (req : PushRequest) (ps : PushContext) :
    (updateSidecarScopesStep env old req ps).AuthnBetaPolicies = ps.AuthnBetaPolicies := by
  unfold updateSidecarScopesStep
  split <;> rfl

/-- The sidecar-scopes block leaves `AuthzPolicies` untouched. -/
theorem updateSidecarScopesStep_AuthzPolicies (env : Environment) (old : PushContext)
    (req : PushRequest) (ps : PushContext) :
    (updateSidecarScopesStep env old req ps).AuthzPolicies = ps.AuthzPolicies := by
  unfold updateSidecarScopesStep
  split <;> rfl

/-- The sidecar-scopes block leaves `envoyFiltersByNamespace` untouched. -/
theorem updateSidecarScopesStep_envoyFiltersByNamespace (env : Environment) (old : PushContext)
    (req : PushRequest) (ps : PushContext) :
    (updateSidecarScopesStep env old req ps).envoyFiltersByNamespace = ps.envoyFiltersByNamespace := by
  unfold updateSidecarScopesStep
  split <;> rfl

/-- The sidecar-scopes block leaves `gw` untouched. -/
theorem updateSidecarScopesStep_gw (env : Environment) (old : PushContext)
    (req : PushRequest) (ps : PushContext) :
    (updateSidecarScopesStep env old req ps).gw = ps.gw := by
  unfold updateSidecarScopesStep
  split <;> rfl

/-- When the services flag is off, its block copies the old
snapshot's `svc`. -/
theorem updateServicesStep_svc_copy (env : Environment) (old : PushContext)
    (req : PushRequest) (ps : PushContext) (h : classChanged marksServices req = false) :
    (updateServicesStep env old req ps).svc = old.svc := by
  unfold updateServicesStep
  simp [h]

/-- When the virtualservices flag is off, its block copies the old
snapshot's `vs`. -/
theorem updateVirtualServicesStep_vs_copy (env : Environment) (old : PushContext)
    (req : PushRequest) (ps : PushContext) (h : classChanged marksVirtualServices req = false) :
    (updateVirtualServicesStep env old req ps).vs = old.vs := by
  unfold updateVirtualServicesStep
  simp [h]

/-- When the destinationrules flag is off, its block copies the old
snapshot's `dr`. -/
theorem updateDestinationRulesStep_dr_copy (env : Environment) (old : PushContext)
    (req : PushRequest) (ps : PushContext) (h : classChanged marksDestinationRules req = false) :
    (updateDestinationRulesStep env old req ps).dr = old.dr := by
  unfold updateDestinationRulesStep
  simp [h]

/-- When the authn flag is off, its block copies the old
snapshot's `AuthnBetaPolicies`. -/
theorem updateAuthnStep_AuthnBetaPolicies_copy (env : Environment) (old : PushContext)
    (req : PushRequest) (ps : PushContext) (h : classChanged marksAuthn req = false) :
    (updateAuthnStep env old req ps).AuthnBetaPolicies = old.AuthnBetaPolicies := by
  unfold updateAuthnStep
  simp [h]

/-- When the authz flag is off, its block copies the old
snapshot's `AuthzPolicies`. -/
theorem updateAuthzStep_AuthzPolicies_copy (env : Environment) (old : PushContext)
    (req : PushRequest) (ps : PushContext) (h : classChanged marksAuthz req = false) :
    (updateAuthzStep env old req ps).AuthzPolicies = old.AuthzPolicies := by
  unfold updateAuthzStep
  simp [h]

/-- When the envoyfilters flag is off, its block copies the old
snapshot's `envoyFiltersByNamespace`. -/
theorem updateEnvoyFiltersStep_envoyFiltersByNamespace_copy (env : Environment) (old : PushContext)
    (req : PushRequest) (ps : PushContext) (h : classChanged marksEnvoyFilters req = false) :
    (updateEnvoyFiltersStep env old req ps).envoyFiltersByNamespace = old.envoyFiltersByNamespace := by
  unfold updateEnvoyFiltersStep
  simp [h]

/-- When the gateways flag is off, its block copies the old
snapshot's `gw`. -/
theorem updateGatewaysStep_gw_copy (env : Environment) (old : PushContext)
    (req : PushRequest) (ps : PushContext) (h : classChanged marksGateways req = false) :
    (updateGatewaysStep env old req ps).gw = old.gw := by
  unfold updateGatewaysStep
  simp [h]

/-- When the sidecar trigger is off, the final block copies the old
snapshot's `sidecarsByNamespace`. -/
theorem updateSidecarScopesStep_sidecars_copy (env : Environment) (old : PushContext)
    (req : PushRequest) (ps : PushContext)
    (h : (classChanged marksServices req || classChanged marksVirtualServices req
      || classChanged marksDestinationRules req || classChanged marksSidecars req) = false) :
    (updateSidecarScopesStep env old req ps).sidecarsByNamespace = old.sidecarsByNamespace := by
  unfold updateSidecarScopesStep
  simp [h]

/-- Membership in a conditional singleton. -/
theorem mem_ite_singleton {c : Prop} [Decidable c] (x y : InitPass) :
    x ∈ (if c then [y] else ([] : List InitPass)) ↔ (c ∧ x = y) := by
  split <;> simp [*]

/-- The sidecar-rebuild flag disjunction, as a quantifier over the updated
config keys. -/
theorem sidecarTrigger_iff (req : PushRequest) :
    (classChanged marksServices req || classChanged marksVirtualServices req
        || classChanged marksDestinationRules req || classChanged marksSidecars req) = true
      ↔ (∃ c ∈ req.ConfigsUpdated,
          (marksServices c.kind || marksVirtualServices c.kind
            || marksDestinationRules c.kind || marksSidecars c.kind) = true) := by
  simp only [Bool.or_eq_true, classChanged, decide_eq_true_eq]
  constructor
  · rintro (((⟨c, hc, h⟩ | ⟨c, hc, h⟩) | ⟨c, hc, h⟩) | ⟨c, hc, h⟩) <;>
      exact ⟨c, hc, by simp [h]⟩
  · rintro ⟨c, hc, h⟩
    have h' : marksServices c.kind = true ∨ marksVirtualServices c.kind = true
        ∨ marksDestinationRules c.kind = true ∨ marksSidecars c.kind = true := by
      simpa [Bool.or_eq_true, or_assoc] using h
    rcases h' with h' | h' | h' | h'
    · exact Or.inl (Or.inl (Or.inl ⟨c, hc, h'⟩))
    · exact Or.inl (Or.inl (Or.inr ⟨c, hc, h'⟩))
    · exact Or.inl (Or.inr ⟨c, hc, h'⟩)
    · exact Or.inr ⟨c, hc, h'⟩

/-- C5: in an incremental build, sidecar scopes are re-initialized exactly
when some updated config key's kind marks services, virtual services,
destination rules or sidecars as changed (gateway-API kinds mark virtual
services); when not, `sidecarsByNamespace` is copied from the old snapshot;
and every index class whose kinds are absent from `ConfigsUpdated` is
copied from the old snapshot rather than rebuilt. -/
theorem updateContext_incremental (env : Environment) (old : PushContext)
    (req : PushRequest) (ps : PushContext) (htrace : ps.trace = []) :
    (InitPass.sidecarScopes ∈ (updateContext env old req ps).trace
        ↔ (∃ c ∈ req.ConfigsUpdated,
            (marksServices c.kind || marksVirtualServices c.kind
              || marksDestinationRules c.kind || marksSidecars c.kind) = true))
      ∧ ((¬ ∃ c ∈ req.ConfigsUpdated,
            (marksServices c.kind || marksVirtualServices c.kind
              || marksDestinationRules c.kind || marksSidecars c.kind) = true) →
          (updateContext env old req ps).sidecarsByNamespace = old.sidecarsByNamespace)
      ∧ (classChanged marksServices req = false →
          (updateContext env old req ps).svc = old.svc)
      ∧ (classChanged marksVirtualServices req = false →
          (updateContext env old req ps).vs = old.vs)
      ∧ (classChanged marksDestinationRules req = false →
          (updateContext env old req ps).dr = old.dr)
      ∧ (classChanged marksAuthn req = false →
          (updateContext env old req ps).AuthnBetaPolicies = old.AuthnBetaPolicies)
      ∧ (classChanged marksAuthz req = false →
          (updateContext env old req ps).AuthzPolicies = old.AuthzPolicies)
      ∧ (classChanged marksEnvoyFilters req = false →
          (updateContext env old req ps).envoyFiltersByNamespace = old.envoyFiltersByNamespace)
      ∧ (classChanged marksGateways req = false →
          (updateContext env old req ps).gw = old.gw) := by
  refine ⟨?_, ?_, ?_, ?_, ?_, ?_, ?_, ?_, ?_⟩
  · rw [← sidecarTrigger_iff, updateContext_trace, htrace]
    simp only [List.nil_append, List.mem_append, mem_ite_singleton]
    simp
  · intro h
    rw [← sidecarTrigger_iff] at h
    have hfalse : (classChanged marksServices req || classChanged marksVirtualServices req
        || classChanged marksDestinationRules req || classChanged marksSidecars req) = false := by
      simpa using h
    unfold updateContext
    exact updateSidecarScopesStep_sidecars_copy env old req _ hfalse
  · intro h
    unfold updateContext
    rw [updateSidecarScopesStep_svc, updateGatewaysStep_svc, updateEnvoyFiltersStep_svc,
      updateAuthzStep_svc, updateAuthnStep_svc, updateDestinationRulesStep_svc,
      updateVirtualServicesStep_svc]
    exact updateServicesStep_svc_copy env old req ps h
  · intro h
    unfold updateContext
    rw [updateSidecarScopesStep_vs, updateGatewaysStep_vs, updateEnvoyFiltersStep_vs,
      updateAuthzStep_vs, updateAuthnStep_vs, updateDestinationRulesStep_vs]
    exact updateVirtualServicesStep_vs_copy env old req _ h
  · intro h
    unfold updateContext
    rw [updateSidecarScopesStep_dr, updateGatewaysStep_dr, updateEnvoyFiltersStep_dr,
      updateAuthzStep_dr, updateAuthnStep_dr]
    exact updateDestinationRulesStep_dr_copy env old req _ h
  · intro h
    unfold updateContext
    rw [updateSidecarScopesStep_AuthnBetaPolicies, updateGatewaysStep_AuthnBetaPolicies,
      updateEnvoyFiltersStep_AuthnBetaPolicies, updateAuthzStep_AuthnBetaPolicies]
    exact updateAuthnStep_AuthnBetaPolicies_copy env old req _ h
  · intro h
    unfold updateContext
    rw [updateSidecarScopesStep_AuthzPolicies, updateGatewaysStep_AuthzPolicies,
      updateEnvoyFiltersStep_AuthzPolicies]
    exact updateAuthzStep_AuthzPolicies_copy env old req _ h
  · intro h
    unfold updateContext
    rw [updateSidecarScopesStep_envoyFiltersByNamespace,
      updateGatewaysStep_envoyFiltersByNamespace]
    exact updateEnvoyFiltersStep_envoyFiltersByNamespace_copy env old req _ h
  · intro h
    unfold updateContext
    rw [updateSidecarScopesStep_gw]
    exact updateGatewaysStep_gw_copy env old req _ h

/-- Witness for C5: the empty incremental request against the fresh
snapshot — no class is rebuilt and every index is copied from the old
snapshot. -/
theorem updateContext_incremental_witness :
    (InitPass.sidecarScopes ∈ (updateContext baseEnvironment basePushContext
          { Full := false, ConfigsUpdated := ∅, Push := none, Start := 0, Reason := [] }
          basePushContext).trace
        ↔ (∃ c ∈ (∅ : Finset ConfigKey),
            (marksServices c.kind || marksVirtualServices c.kind
              || marksDestinationRules c.kind || marksSidecars c.kind) = true))
      ∧ ((¬ ∃ c ∈ (∅ : Finset ConfigKey),
            (marksServices c.kind || marksVirtualServices c.kind
              || marksDestinationRules c.kind || marksSidecars c.kind) = true) →
          (updateContext baseEnvironment basePushContext
            { Full := false, ConfigsUpdated := ∅, Push := none, Start := 0, Reason := [] }
            basePushContext).sidecarsByNamespace = basePushContext.sidecarsByNamespace)
      ∧ (classChanged marksServices
            { Full := false, ConfigsUpdated := ∅, Push := none, Start := 0, Reason := [] } = false →
          (updateContext baseEnvironment basePushContext
            { Full := false, ConfigsUpdated := ∅, Push := none, Start := 0, Reason := [] }
            basePushContext).svc = basePushContext.svc)
      ∧ (classChanged marksVirtualServices
            { Full := false, ConfigsUpdated := ∅, Push := none, Start := 0, Reason := [] } = false →
          (updateContext baseEnvironment basePushContext
            { Full := false, ConfigsUpdated := ∅, Push := none, Start := 0, Reason := [] }
            basePushContext).vs = basePushContext.vs)
      ∧ (classChanged marksDestinationRules
            { Full := false, ConfigsUpdated := ∅, Push := none, Start := 0, Reason := [] } = false →
          (updateContext baseEnvironment basePushContext
            { Full := false, ConfigsUpdated := ∅, Push := none, Start := 0, Reason := [] }
            basePushContext).dr = basePushContext.dr)
      ∧ (classChanged marksAuthn
            { Full := false, ConfigsUpdated := ∅, Push := none, Start := 0, Reason := [] } = false →
          (updateContext baseEnvironment basePushContext
            { Full := false, ConfigsUpdated := ∅, Push := none, Start := 0, Reason := [] }
            basePushContext).AuthnBetaPolicies = basePushContext.AuthnBetaPolicies)
      ∧ (classChanged marksAuthz
            { Full := false, ConfigsUpdated := ∅, Push := none, Start := 0, Reason := [] } = false →
          (updateContext baseEnvironment basePushContext
            { Full := false, ConfigsUpdated := ∅, Push := none, Start := 0, Reason := [] }
            basePushContext).AuthzPolicies = basePushContext.AuthzPolicies)
      ∧ (classChanged marksEnvoyFilters
            { Full := false, ConfigsUpdated := ∅, Push := none, Start := 0, Reason := [] } = false →
          (updateContext baseEnvironment basePushContext
            { Full := false, ConfigsUpdated := ∅, Push := none, Start := 0, Reason := [] }
            basePushContext).envoyFiltersByNamespace = basePushContext.envoyFiltersByNamespace)
      ∧ (classChanged marksGateways
            { Full := false, ConfigsUpdated := ∅, Push := none, Start := 0, Reason := [] } = false →
          (updateContext baseEnvironment basePushContext
            { Full := false, ConfigsUpdated := ∅, Push := none, Start := 0, Reason := [] }
            basePushContext).gw = basePushContext.gw) :=
  updateContext_incremental baseEnvironment basePushContext
    { Full := false, ConfigsUpdated := ∅, Push := none, Start := 0, Reason := [] }
    basePushContext rfl

end IstioProof
